import Mathlib

set_option maxRecDepth 100000

/-!
Verification development for the med-safety-engine repository.

The JavaScript sources are shallowly embedded in Lean 4:

* JS strings are modelled as lists of Unicode code points (`JsStr := List Nat`);
  `String.prototype.toLowerCase` / `toUpperCase` are modelled on the ASCII
  range actually exercised by the tables, `trim` uses the ECMAScript
  white-space set, and `String.prototype.includes` is substring occurrence.
* JS objects used as lookup tables are modelled as association lists in
  declaration order (matching `Object.entries` enumeration order for
  string keys); a duplicated literal key keeps its first position and its
  last value, as in JS (relevant only to `ACB_SCORES.clozapine`).
* Numbers that the verified code paths compare or add are integers in the
  sources' tables, and are modelled as `Int` / `Nat`.
-/

/-- A JavaScript string, as its list of Unicode code points. -/
abbrev JsStr := List Nat

/-- Code points of a Lean string literal; used to write the tables. -/
def str (s : String) : JsStr := s.data.map Char.toNat

/-- One code point of `String.prototype.toLowerCase` (ASCII range; the
tables contain only ASCII letters, digits and punctuation). -/
def lowerCp (c : Nat) : Nat := if 65 ≤ c ∧ c ≤ 90 then c + 32 else c

/-- One code point of `String.prototype.toUpperCase` (ASCII range). -/
def upperCp (c : Nat) : Nat := if 97 ≤ c ∧ c ≤ 122 then c - 32 else c

/-- Model of `String.prototype.toLowerCase`. -/
def lowerL (l : JsStr) : JsStr := l.map lowerCp

/-- Model of `String.prototype.toUpperCase`. -/
def upperL (l : JsStr) : JsStr := l.map upperCp

/-- ECMAScript white space and line terminators, as recognised by
`String.prototype.trim`. -/
def wsB (c : Nat) : Bool :=
  c == 9 || c == 10 || c == 11 || c == 12 || c == 13 || c == 32 || c == 160 ||
  c == 5760 || c == 8192 || c == 8193 || c == 8194 || c == 8195 || c == 8196 ||
  c == 8197 || c == 8198 || c == 8199 || c == 8200 || c == 8201 || c == 8202 ||
  c == 8232 || c == 8233 || c == 8239 || c == 8287 || c == 12288 || c == 65279

/-- Model of `String.prototype.trim`: drop leading and trailing white space. -/
def trimL (l : JsStr) : JsStr := (((l.dropWhile wsB).reverse.dropWhile wsB)).reverse

/-- Whether `needle` is a leading segment of `hay`. -/
def leadsB : JsStr → JsStr → Bool
  | [], _ => true
  | _ :: _, [] => false
  | a :: as, b :: bs => a == b && leadsB as bs

/-- Model of `hay.includes(needle)` for JS strings. -/
def jsIncludes (hay needle : JsStr) : Bool :=
  leadsB needle hay ||
    (match hay with
     | [] => false
     | _ :: t => jsIncludes t needle)

/-- Decimal digits, with structural fuel so that the kernel can evaluate it. -/
def natDecAux : Nat → Nat → JsStr
  | 0, _ => []
  | fuel + 1, n => if n < 10 then [48 + n] else natDecAux fuel (n / 10) ++ [48 + n % 10]

/-- Decimal digits of a natural number, as a JS string (models JS template
interpolation of a non-negative integer). -/
def natDec (n : Nat) : JsStr := natDecAux (n + 1) n

/-- Join a list of JS strings with a separator (models `Array.prototype.join`). -/
def joinSep (sep : JsStr) : List JsStr → JsStr
  | [] => []
  | [x] => x
  | x :: y :: t => x ++ sep ++ joinSep sep (y :: t)

example : lowerL (str "QT_Prolonging") = str "qt_prolonging" := by decide
example : trimL (str "  ab c  ") = str "ab c" := by decide
example : jsIncludes (str "oxycodone 10mg") (str "oxycodone") = true := by decide
example : jsIncludes (str "oxy") (str "oxycodone") = false := by decide
example : natDec 905 = str "905" := by decide

/-!
Property reads on JS plain objects.

The lookup tables of the sources are plain object literals, and the code
reads them with bracket access guarded by truthiness
(`TABLE[key]`, `TABLE[key] !== undefined`).  Such a read walks the
prototype chain: when `key` is not an own key but is a property name of
`Object.prototype` (for example `constructor`, `toString` or
`__proto__`), the read yields the inherited member — a truthy non-string
function (or, for `__proto__`, an object) — rather than `undefined`.
`objGet` models the three possible outcomes.
-/

/-- The property names of `Object.prototype` (including the Annex B legacy
accessors present in Node), which a plain-object bracket read inherits. -/
def OBJECT_PROTO_KEYS : List JsStr :=
  [str "constructor", str "hasOwnProperty", str "isPrototypeOf",
   str "propertyIsEnumerable", str "toLocaleString", str "toString",
   str "valueOf", str "__proto__", str "__defineGetter__",
   str "__defineSetter__", str "__lookupGetter__", str "__lookupSetter__"]

/-- Outcome of a bracket read `TABLE[key]` on a plain object literal: an
own property's value, an `Object.prototype`-inherited member (truthy,
never a string or a number), or `undefined` (`absent`). -/
inductive PropRead (α : Type) where
  | own (v : α)
  | inherited
  | absent
deriving DecidableEq, Repr

/-- Bracket read on a plain object literal modelled as an association
list: own keys first, then the prototype chain. -/
def objGet {α : Type} (table : List (JsStr × α)) (k : JsStr) : PropRead α :=
  match List.lookup k table with
  | some v => .own v
  | none => if k ∈ OBJECT_PROTO_KEYS then .inherited else .absent

/-!
Embedding of `src/constants/effects_vocabulary.js`.

`EFFECTS_VOCABULARY` is modelled as the (canonical tag, legacy aliases)
pairs in declaration order; the `description` / `examples` / `note` fields
are documentation only and are read by no code path.
-/

/-- The canonical effect vocabulary of `effects_vocabulary.js`: each entry is
a canonical tag together with its declared legacy aliases. -/
def EFFECTS_VOCABULARY : List (JsStr × List JsStr) :=
  [ (str "hypotensive", []),
    (str "bradycardic", []),
    (str "qt_prolonging", [str "QT_prolonging"]),
    (str "fluid_retention", []),
    (str "sedating", []),
    (str "anticholinergic", []),
    (str "dopamine_blocking", []),
    (str "serotonergic", []),
    (str "seizure_lowering", []),
    (str "fall_risk", []),
    (str "respiratory_depressant", []),
    (str "opioid", []),
    (str "constipating", []),
    (str "nephrotoxic", []),
    (str "hyperkalemia_risk", []),
    (str "hypokalemia_risk", []),
    (str "lactic_acidosis_risk", []),
    (str "hypoglycemia", []),
    (str "hypoglycemia_prolonged", []),
    (str "gi_bleeding", [str "GI_bleeding"]),
    (str "hepatotoxic", []),
    (str "ppi_effects", [str "PPI_effects"]),
    (str "siadh", [str "SIADH"]),
    (str "antiplatelet", []),
    (str "anticoagulant", []),
    (str "bleeding_risk", []) ]

/-- `ALLOWED_EFFECTS = Object.keys(EFFECTS_VOCABULARY)`. -/
def ALLOWED_EFFECTS : List JsStr := EFFECTS_VOCABULARY.map Prod.fst

/-- `ALIAS_TO_CANONICAL`, built exactly as the loop in the source: for each
vocabulary entry, each alias and its lower-cased form map to the canonical
tag, and the canonical tag maps to itself.  (No key is ever assigned two
different values, so an association list looked up front-to-back agrees
with the JS object.) -/
def ALIAS_TO_CANONICAL : List (JsStr × JsStr) :=
  EFFECTS_VOCABULARY.flatMap fun p =>
    (p.2.flatMap fun a => [(a, p.1), (lowerL a, p.1)]) ++ [(p.1, p.1)]

/-- A value flowing through effect-tag normalization: a JS string, or the
non-string `Object.prototype` member that the truthy alias-map read leaks
for reserved names such as `constructor`. -/
inductive EffTagVal where
  | s (v : JsStr)
  | protoMember
deriving DecidableEq, Repr

/-- Embedding of `normEffectTag`: the empty string for non-string or empty
input; otherwise the alias map is read with a truthy bracket access on the
trimmed tag — an own entry rewrites to its canonical tag, but a trimmed
tag that is an `Object.prototype` property name hits the inherited member
(truthy) and the function returns that non-string member; only a genuine
miss falls through to the lower-cased trimmed tag.  (The one-time
deprecation warning is console output only and does not affect the
returned value.) -/
def normEffectTag (tag : EffTagVal) : EffTagVal :=
  match tag with
  | .protoMember => .s []
  | .s t =>
      if t = [] then .s []
      else
        match objGet ALIAS_TO_CANONICAL (trimL t) with
        | .own canonical => .s canonical
        | .inherited => .protoMember
        | .absent => .s (lowerL (trimL t))

/-- Embedding of `isValidEffect`: normalize, then membership in
`ALLOWED_EFFECTS` (`includes` compares by value, so the leaked non-string
member is never a member). -/
def isValidEffect (effect : JsStr) : Bool :=
  if effect = [] then false
  else
    match normEffectTag (.s effect) with
    | .s v => ALLOWED_EFFECTS.contains v
    | .protoMember => false

example : normEffectTag (.s (str "QT_prolonging")) = .s (str "qt_prolonging") := by decide
example : normEffectTag (.s (str " sedating ")) = .s (str "sedating") := by decide
example : normEffectTag (.s (str "Weird Tag")) = .s (str "weird tag") := by decide
example : normEffectTag (.s (str "constructor")) = .protoMember := by decide
example : isValidEffect (str "SIADH") = true := by decide
example : isValidEffect (str "neurotoxic") = false := by decide
example : isValidEffect (str "constructor") = false := by decide

/-!
Embedding of the ICD-10 condition mapper (the `CONDITION_GROUPERS` /
`deriveConditionsFromICD` / `getContraindicatedEffects` module).  Grouper
`reason` / `note` strings are documentation carried into alert prose only;
the verified properties never read them, so the embedding keeps the
condition keys, prefixes, avoid-effects and drug exclusions.
-/

namespace ICD

/-- The `CONDITION_GROUPERS` table: condition key and `icdPrefixes`, in
declaration order. -/
def CONDITION_GROUPERS : List (JsStr × List JsStr) :=
  [ (str "dementia", [str "F01", str "F02", str "F03", str "G30", str "G31"]),
    (str "falls_history_fracture_risk",
      [str "W18", str "W19", str "R296", str "Z8739", str "M80", str "M81"]),
    (str "heart_failure", [str "I50", str "I110", str "I130", str "I132"]),
    (str "syncope", [str "R55"]),
    (str "parkinsons_disease", [str "G20", str "G21"]),
    (str "seizure_disorder", [str "G40", str "G41", str "R56"]),
    (str "gi_bleed_peptic_ulcer_history",
      [str "K25", str "K26", str "K27", str "K920", str "K921", str "K922"]),
    (str "ckd_stage_4_5", [str "N184", str "N185", str "N186"]),
    (str "urinary_retention_bph", [str "R33", str "N40"]),
    (str "chronic_constipation", [str "K590"]),
    (str "narrow_angle_glaucoma", [str "H402"]),
    (str "qt_prolongation", [str "I4581", str "R9431"]),
    (str "bradycardia", [str "R001", str "I495"]),
    (str "orthostatic_hypotension", [str "I951"]),
    (str "delirium", [str "F05", str "R410"]),
    (str "copd_respiratory_disease", [str "J44", str "J43", str "J45"]),
    (str "cirrhosis_liver_disease", [str "K70", str "K74", str "K76"]),
    (str "osteoporosis", [str "M80", str "M81"]),
    (str "atrial_fibrillation", [str "I48"]),
    (str "diabetes_hypoglycemia_risk", [str "E1164", str "E1165"]) ]

/-- Entry of a condition → avoid-effects table: effect tags to avoid and the
optional `exclude_drugs` list (`[]` models an absent field, which every
consumer reads through optional chaining). -/
structure AvoidEntry where
  effects : List JsStr
  exclude_drugs : List JsStr := []
deriving DecidableEq, Repr

/-- The ICD mapper's `CONDITION_AVOID_EFFECTS` table, in declaration order. -/
def CONDITION_AVOID_EFFECTS : List (JsStr × AvoidEntry) :=
  [ (str "dementia", { effects := [str "anticholinergic", str "sedating"] }),
    (str "falls_history_fracture_risk",
      { effects := [str "sedating", str "hypotensive", str "fall_risk"] }),
    (str "heart_failure", { effects := [str "fluid_retention", str "nephrotoxic"] }),
    (str "syncope",
      { effects := [str "hypotensive", str "bradycardic", str "QT_prolonging"] }),
    (str "parkinsons_disease",
      { effects := [str "dopamine_blocking"],
        exclude_drugs := [str "quetiapine", str "clozapine"] }),
    (str "seizure_disorder", { effects := [str "seizure_lowering"] }),
    (str "gi_bleed_peptic_ulcer_history",
      { effects := [str "GI_bleeding", str "antiplatelet"] }),
    (str "ckd_stage_4_5", { effects := [str "nephrotoxic"] }),
    (str "urinary_retention_bph", { effects := [str "anticholinergic"] }),
    (str "chronic_constipation",
      { effects := [str "anticholinergic", str "constipating"] }),
    (str "narrow_angle_glaucoma", { effects := [str "anticholinergic"] }),
    (str "qt_prolongation", { effects := [str "QT_prolonging"] }),
    (str "bradycardia", { effects := [str "bradycardic"] }),
    (str "orthostatic_hypotension", { effects := [str "hypotensive"] }),
    (str "delirium",
      { effects := [str "anticholinergic", str "sedating", str "dopamine_blocking"] }),
    (str "copd_respiratory_disease",
      { effects := [str "respiratory_depressant", str "sedating"] }),
    (str "cirrhosis_liver_disease", { effects := [str "hepatotoxic", str "sedating"] }),
    (str "osteoporosis", { effects := [str "fall_risk", str "PPI_effects"] }),
    (str "atrial_fibrillation", { effects := [] }),
    (str "diabetes_hypoglycemia_risk", { effects := [str "hypoglycemia_prolonged"] }) ]

/-- Embedding of `normICD`: uppercase, remove dots, trim. -/
def normICD (code : JsStr) : JsStr := trimL ((upperL code).filter (fun c => c != 46))

/-- Append a condition key to the entry of one normalized code prefix in the
index, creating the entry if needed (models `index[prefix].push(key)` on a
plain object: first-insertion position, values appended in order). -/
def addToIndex (idx : List (JsStr × List JsStr)) (pfx key : JsStr) :
    List (JsStr × List JsStr) :=
  match idx with
  | [] => [(pfx, [key])]
  | (p, ks) :: t =>
      if p = pfx then (p, ks ++ [key]) :: t else (p, ks) :: addToIndex t pfx key

/-- Embedding of `buildPrefixIndex`: flatten all groupers' prefixes into a
normalized-prefix → condition-keys index. -/
def buildPrefixIndex : List (JsStr × List JsStr) :=
  CONDITION_GROUPERS.foldl
    (fun idx g => g.2.foldl (fun idx2 raw => addToIndex idx2 (normICD raw) g.1) idx) []

/-- The index built once at module load (`ICD_PREFIX_TO_CONDITIONS`). -/
def ICD_PREFIX_TO_CONDITIONS : List (JsStr × List JsStr) := buildPrefixIndex

/-- Condition keys stored in the index for one prefix (a missed lookup is
the absent/falsy case of `ICD_PREFIX_TO_CONDITIONS[prefix]`). -/
def indexConditions (pfx : JsStr) : List JsStr :=
  (List.lookup pfx ICD_PREFIX_TO_CONDITIONS).getD []

/-- Probe lengths for a normalized code of length `L`: `L, L-1, …, 3`. -/
def probeLens (L : Nat) : List Nat := (List.range (L - 2)).map (fun i => L - i)

/-- All condition keys matched by one normalized code, longest prefix first
(duplicates possible; the caller deduplicates through the `Set`). -/
def probeCode (code : JsStr) : List JsStr :=
  (probeLens code.length).flatMap (fun n => indexConditions (code.take n))

/-- Append the elements of `xs` to `acc`, skipping those already present
(models insertion into a JS `Set`, which keeps first-insertion order). -/
def addUnique (acc : List JsStr) (xs : List JsStr) : List JsStr :=
  xs.foldl (fun a x => if x ∈ a then a else a ++ [x]) acc

/-- Embedding of `deriveConditionsFromICD`: normalize each code, skip codes
shorter than 3, probe every prefix length from the full length down to 3,
and accumulate the matched condition keys as a set. -/
def deriveConditionsFromICD (icdCodes : List JsStr) : List JsStr :=
  icdCodes.foldl
    (fun conditions raw =>
      let code := normICD raw
      if code.length < 3 then conditions
      else addUnique conditions (probeCode code)) []

/-- Result shape of `getContraindicatedEffects`. -/
structure ContraResult where
  conditionKeys : List JsStr
  avoidEffects : List JsStr
  byCondition : List (JsStr × AvoidEntry)
deriving Repr

/-- Embedding of `getContraindicatedEffects`: derive the condition keys,
collect each key's avoid-entry, and union the avoid effects as a set. -/
def getContraindicatedEffects (icdCodes : List JsStr) : ContraResult :=
  let conditionKeys := deriveConditionsFromICD icdCodes
  let byCondition := conditionKeys.filterMap fun c =>
    (List.lookup c CONDITION_AVOID_EFFECTS).map fun entry => (c, entry)
  let avoidEffects := byCondition.foldl (fun acc p => addUnique acc p.2.effects) []
  { conditionKeys := conditionKeys, avoidEffects := avoidEffects,
    byCondition := byCondition }

end ICD

example : ICD.normICD (str "g30.1") = str "G301" := by decide
example : ICD.deriveConditionsFromICD [str "I5032"] = [str "heart_failure"] := by decide
example : ICD.deriveConditionsFromICD [str "G311"] = [str "dementia"] := by decide
example : ICD.deriveConditionsFromICD [str "M80"] =
    [str "falls_history_fracture_risk", str "osteoporosis"] := by decide

/-!
Shared alert shape.  An alert is a JS object; the embedding keeps the
fields that the orchestrator, the deduplication key, the sort, or a
verified property reads (`alert_code`, `severity`, `message`, `drug`,
`drugs_involved`, `condition`, `harmful_effects`, `source`).  Prose-only
fields (`reason`, `action`, `alternatives`, `monitoring`, …) are read by
no embedded code path and are omitted.  An absent optional field is
`none` / `[]`, which every consumer reads through falsy / optional
chaining in the sources.
-/

/-- An alert object. -/
structure Alert where
  alert_code : JsStr
  severity : JsStr
  message : JsStr := []
  drug : Option JsStr := none
  drugs_involved : Option (List JsStr) := none
  condition : Option JsStr := none
  harmful_effects : List JsStr := []
  source : Option JsStr := none
deriving DecidableEq, Repr

/-- A medication record; the embedded code paths read only `name`
(`med.name || ""`, so a missing name is the empty string). -/
structure Medication where
  name : JsStr
deriving DecidableEq, Repr

namespace Beers

/-- The `DRUG_EFFECTS` table of `06_beers.js`, in declaration order. -/
def DRUG_EFFECTS : List (JsStr × List JsStr) :=
  [ (str "diphenhydramine", [str "anticholinergic", str "sedating"]),
    (str "hydroxyzine", [str "anticholinergic", str "sedating"]),
    (str "chlorpheniramine", [str "anticholinergic", str "sedating"]),
    (str "promethazine", [str "anticholinergic", str "sedating", str "dopamine_blocking"]),
    (str "meclizine", [str "anticholinergic", str "sedating"]),
    (str "dimenhydrinate", [str "anticholinergic", str "sedating"]),
    (str "brompheniramine", [str "anticholinergic", str "sedating"]),
    (str "doxylamine", [str "anticholinergic", str "sedating"]),
    (str "cyproheptadine", [str "anticholinergic", str "sedating"]),
    (str "amitriptyline", [str "anticholinergic", str "sedating", str "QT_prolonging"]),
    (str "imipramine", [str "anticholinergic", str "sedating", str "QT_prolonging"]),
    (str "doxepin", [str "anticholinergic", str "sedating"]),
    (str "nortriptyline", [str "anticholinergic", str "sedating", str "QT_prolonging"]),
    (str "desipramine", [str "anticholinergic", str "QT_prolonging"]),
    (str "clomipramine",
      [str "anticholinergic", str "sedating", str "serotonergic", str "QT_prolonging"]),
    (str "trimipramine", [str "anticholinergic", str "sedating"]),
    (str "protriptyline", [str "anticholinergic"]),
    (str "oxybutynin", [str "anticholinergic"]),
    (str "tolterodine", [str "anticholinergic"]),
    (str "solifenacin", [str "anticholinergic"]),
    (str "darifenacin", [str "anticholinergic"]),
    (str "fesoterodine", [str "anticholinergic"]),
    (str "trospium", [str "anticholinergic"]),
    (str "dicyclomine", [str "anticholinergic"]),
    (str "hyoscyamine", [str "anticholinergic"]),
    (str "belladonna", [str "anticholinergic"]),
    (str "propantheline", [str "anticholinergic"]),
    (str "glycopyrrolate", [str "anticholinergic"]),
    (str "scopolamine", [str "anticholinergic", str "sedating"]),
    (str "diazepam", [str "sedating", str "muscle_relaxant_effect", str "fall_risk"]),
    (str "lorazepam", [str "sedating", str "fall_risk"]),
    (str "alprazolam", [str "sedating", str "fall_risk"]),
    (str "clonazepam", [str "sedating", str "fall_risk"]),
    (str "temazepam", [str "sedating", str "fall_risk"]),
    (str "triazolam", [str "sedating", str "fall_risk"]),
    (str "chlordiazepoxide", [str "sedating", str "fall_risk"]),
    (str "clorazepate", [str "sedating", str "fall_risk"]),
    (str "flurazepam", [str "sedating", str "fall_risk"]),
    (str "midazolam", [str "sedating", str "fall_risk"]),
    (str "zolpidem", [str "sedating", str "fall_risk"]),
    (str "eszopiclone", [str "sedating", str "fall_risk"]),
    (str "zaleplon", [str "sedating", str "fall_risk"]),
    (str "cyclobenzaprine", [str "anticholinergic", str "sedating"]),
    (str "methocarbamol", [str "sedating"]),
    (str "carisoprodol", [str "sedating"]),
    (str "metaxalone", [str "sedating"]),
    (str "orphenadrine", [str "anticholinergic", str "sedating"]),
    (str "tizanidine", [str "sedating", str "hypotensive"]),
    (str "baclofen", [str "sedating"]),
    (str "haloperidol", [str "dopamine_blocking", str "QT_prolonging", str "fall_risk"]),
    (str "chlorpromazine",
      [str "dopamine_blocking", str "anticholinergic", str "sedating",
       str "QT_prolonging", str "seizure_lowering"]),
    (str "thioridazine",
      [str "dopamine_blocking", str "anticholinergic", str "QT_prolonging",
       str "seizure_lowering"]),
    (str "quetiapine", [str "sedating", str "dopamine_blocking", str "hypotensive"]),
    (str "olanzapine", [str "sedating", str "dopamine_blocking", str "anticholinergic"]),
    (str "risperidone", [str "dopamine_blocking", str "hypotensive"]),
    (str "aripiprazole", [str "dopamine_blocking"]),
    (str "ziprasidone", [str "dopamine_blocking", str "QT_prolonging"]),
    (str "clozapine", [str "sedating", str "anticholinergic", str "seizure_lowering"]),
    (str "prochlorperazine", [str "dopamine_blocking"]),
    (str "metoclopramide", [str "dopamine_blocking"]),
    (str "morphine", [str "opioid", str "sedating", str "respiratory_depressant"]),
    (str "hydrocodone", [str "opioid", str "sedating"]),
    (str "oxycodone", [str "opioid", str "sedating"]),
    (str "hydromorphone", [str "opioid", str "sedating", str "respiratory_depressant"]),
    (str "fentanyl", [str "opioid", str "sedating", str "respiratory_depressant"]),
    (str "codeine", [str "opioid", str "sedating"]),
    (str "tramadol", [str "opioid", str "serotonergic", str "seizure_lowering"]),
    (str "meperidine",
      [str "opioid", str "sedating", str "seizure_lowering", str "neurotoxic"]),
    (str "methadone", [str "opioid", str "sedating", str "QT_prolonging"]),
    (str "buprenorphine", [str "opioid", str "sedating"]),
    (str "tapentadol", [str "opioid", str "serotonergic"]),
    (str "ibuprofen", [str "nephrotoxic", str "GI_bleeding", str "fluid_retention"]),
    (str "naproxen", [str "nephrotoxic", str "GI_bleeding", str "fluid_retention"]),
    (str "diclofenac", [str "nephrotoxic", str "GI_bleeding", str "fluid_retention"]),
    (str "meloxicam", [str "nephrotoxic", str "GI_bleeding", str "fluid_retention"]),
    (str "indomethacin",
      [str "nephrotoxic", str "GI_bleeding", str "fluid_retention", str "CNS_effects"]),
    (str "ketorolac", [str "nephrotoxic", str "GI_bleeding", str "fluid_retention"]),
    (str "piroxicam", [str "nephrotoxic", str "GI_bleeding", str "fluid_retention"]),
    (str "celecoxib", [str "nephrotoxic", str "fluid_retention"]),
    (str "aspirin", [str "GI_bleeding", str "antiplatelet"]),
    (str "digoxin", [str "arrhythmogenic", str "narrow_therapeutic_index"]),
    (str "amiodarone",
      [str "QT_prolonging", str "thyroid_effects", str "pulmonary_toxicity"]),
    (str "sotalol", [str "QT_prolonging"]),
    (str "dofetilide", [str "QT_prolonging"]),
    (str "dronedarone", [str "fluid_retention"]),
    (str "nifedipine", [str "hypotensive", str "reflex_tachycardia"]),
    (str "diltiazem", [str "bradycardic", str "hypotensive"]),
    (str "verapamil", [str "bradycardic", str "hypotensive", str "constipating"]),
    (str "doxazosin", [str "hypotensive", str "fall_risk"]),
    (str "prazosin", [str "hypotensive", str "fall_risk"]),
    (str "terazosin", [str "hypotensive", str "fall_risk"]),
    (str "clonidine",
      [str "sedating", str "hypotensive", str "bradycardic", str "rebound_hypertension"]),
    (str "methyldopa", [str "sedating", str "hypotensive"]),
    (str "glyburide", [str "hypoglycemia_prolonged"]),
    (str "glipizide", [str "hypoglycemia"]),
    (str "glimepiride", [str "hypoglycemia"]),
    (str "chlorpropamide", [str "hypoglycemia_prolonged", str "SIADH"]),
    (str "insulin", [str "hypoglycemia"]),
    (str "phenytoin", [str "sedating", str "fall_risk", str "narrow_therapeutic_index"]),
    (str "phenobarbital", [str "sedating", str "fall_risk"]),
    (str "carbamazepine", [str "sedating", str "SIADH", str "narrow_therapeutic_index"]),
    (str "valproate", [str "sedating"]),
    (str "gabapentin", [str "sedating", str "fall_risk"]),
    (str "pregabalin", [str "sedating", str "fall_risk"]),
    (str "topiramate", [str "sedating", str "cognitive_effects"]),
    (str "levetiracetam", [str "sedating"]),
    (str "fluoxetine", [str "serotonergic", str "fall_risk"]),
    (str "sertraline", [str "serotonergic", str "fall_risk"]),
    (str "paroxetine", [str "serotonergic", str "anticholinergic", str "fall_risk"]),
    (str "citalopram", [str "serotonergic", str "QT_prolonging", str "fall_risk"]),
    (str "escitalopram", [str "serotonergic", str "QT_prolonging", str "fall_risk"]),
    (str "venlafaxine", [str "serotonergic", str "hypertensive"]),
    (str "duloxetine", [str "serotonergic"]),
    (str "mirtazapine", [str "sedating", str "fall_risk"]),
    (str "trazodone", [str "sedating", str "hypotensive", str "fall_risk"]),
    (str "bupropion", [str "seizure_lowering"]),
    (str "omeprazole", [str "PPI_effects"]),
    (str "pantoprazole", [str "PPI_effects"]),
    (str "esomeprazole", [str "PPI_effects"]),
    (str "lansoprazole", [str "PPI_effects"]),
    (str "rabeprazole", [str "PPI_effects"]),
    (str "dexlansoprazole", [str "PPI_effects"]),
    (str "cimetidine", [str "anticholinergic", str "drug_interactions"]),
    (str "ranitidine", [str "CNS_effects"]),
    (str "famotidine", []),
    (str "nitrofurantoin", [str "nephrotoxic", str "pulmonary_toxicity"]),
    (str "fluoroquinolones", [str "QT_prolonging", str "tendon_rupture", str "CNS_effects"]),
    (str "ciprofloxacin", [str "QT_prolonging", str "tendon_rupture", str "CNS_effects"]),
    (str "levofloxacin", [str "QT_prolonging", str "tendon_rupture", str "CNS_effects"]),
    (str "moxifloxacin", [str "QT_prolonging", str "tendon_rupture"]),
    (str "theophylline",
      [str "arrhythmogenic", str "seizure_lowering", str "narrow_therapeutic_index"]),
    (str "lithium", [str "narrow_therapeutic_index", str "nephrotoxic"]),
    (str "warfarin", [str "bleeding_risk", str "narrow_therapeutic_index"]),
    (str "cilostazol", [str "fluid_retention"]) ]

end Beers

namespace Beers

/-- The `ACB_SCORES` table, in declaration order.  The source declares the
literal key `clozapine` twice (3 in the score-3 block, then 2 in the
score-2 block); per JS object-literal semantics the property keeps its
first position with the last value, so it appears here once, with 2. -/
def ACB_SCORES : List (JsStr × Nat) :=
  [ (str "amitriptyline", 3), (str "atropine", 3), (str "benztropine", 3),
    (str "chlorpheniramine", 3), (str "chlorpromazine", 3), (str "clomipramine", 3),
    (str "clozapine", 2), (str "cyproheptadine", 3), (str "desipramine", 3),
    (str "dicyclomine", 3), (str "diphenhydramine", 3), (str "doxepin", 3),
    (str "doxylamine", 3), (str "fesoterodine", 3), (str "hydroxyzine", 3),
    (str "hyoscyamine", 3), (str "imipramine", 3), (str "meclizine", 3),
    (str "nortriptyline", 3), (str "olanzapine", 3), (str "orphenadrine", 3),
    (str "oxybutynin", 3), (str "paroxetine", 3), (str "perphenazine", 3),
    (str "promethazine", 3), (str "scopolamine", 3), (str "thioridazine", 3),
    (str "tolterodine", 3), (str "trifluoperazine", 3), (str "trihexyphenidyl", 3),
    (str "trimipramine", 3),
    (str "amantadine", 2), (str "baclofen", 2), (str "carbamazepine", 2),
    (str "cetirizine", 2), (str "cimetidine", 2), (str "cyclobenzaprine", 2),
    (str "darifenacin", 2), (str "loperamide", 2), (str "loratadine", 2),
    (str "meperidine", 2), (str "nifedipine", 2), (str "oxcarbazepine", 2),
    (str "pimozide", 2), (str "solifenacin", 2), (str "trospium", 2),
    (str "alprazolam", 1), (str "aripiprazole", 1), (str "atenolol", 1),
    (str "bupropion", 1), (str "captopril", 1), (str "citalopram", 1),
    (str "codeine", 1), (str "diazepam", 1), (str "digoxin", 1),
    (str "duloxetine", 1), (str "escitalopram", 1), (str "fentanyl", 1),
    (str "fluoxetine", 1), (str "fluvoxamine", 1), (str "furosemide", 1),
    (str "haloperidol", 1), (str "hydralazine", 1), (str "hydrocortisone", 1),
    (str "isosorbide", 1), (str "levocetirizine", 1), (str "lithium", 1),
    (str "metformin", 1), (str "metoprolol", 1), (str "morphine", 1),
    (str "oxycodone", 1), (str "prednisone", 1), (str "quetiapine", 1),
    (str "ranitidine", 1), (str "risperidone", 1), (str "sertraline", 1),
    (str "theophylline", 1), (str "trazodone", 1), (str "venlafaxine", 1),
    (str "warfarin", 1) ]

/-- The `PIM_DATABASE` table used by `getPIMInfo` (drug name → Beers
severity class), in declaration order; `reason` / `alternatives` are prose
carried into alert fields the embedding omits. -/
def PIM_DATABASE : List (JsStr × JsStr) :=
  [ (str "diphenhydramine", str "AVOID"), (str "hydroxyzine", str "AVOID"),
    (str "chlorpheniramine", str "AVOID"), (str "promethazine", str "AVOID"),
    (str "meclizine", str "AVOID"), (str "diazepam", str "AVOID"),
    (str "lorazepam", str "AVOID"), (str "alprazolam", str "AVOID"),
    (str "clonazepam", str "AVOID"), (str "temazepam", str "AVOID"),
    (str "triazolam", str "AVOID"), (str "flurazepam", str "AVOID"),
    (str "chlordiazepoxide", str "AVOID"), (str "zolpidem", str "AVOID"),
    (str "eszopiclone", str "AVOID"), (str "zaleplon", str "AVOID"),
    (str "cyclobenzaprine", str "AVOID"), (str "methocarbamol", str "AVOID"),
    (str "carisoprodol", str "AVOID"), (str "metaxalone", str "AVOID"),
    (str "orphenadrine", str "AVOID"), (str "dicyclomine", str "AVOID"),
    (str "hyoscyamine", str "AVOID"), (str "oxybutynin", str "AVOID"),
    (str "tolterodine", str "CAUTION"), (str "solifenacin", str "CAUTION"),
    (str "amitriptyline", str "AVOID"), (str "imipramine", str "AVOID"),
    (str "doxepin", str "AVOID"), (str "glyburide", str "AVOID"),
    (str "chlorpropamide", str "AVOID"), (str "metoclopramide", str "AVOID"),
    (str "meperidine", str "AVOID"), (str "indomethacin", str "AVOID"),
    (str "ketorolac", str "AVOID"), (str "nifedipine", str "AVOID"),
    (str "doxazosin", str "AVOID_HTN"), (str "prazosin", str "AVOID_HTN"),
    (str "terazosin", str "AVOID_HTN"), (str "clonidine", str "AVOID"),
    (str "methyldopa", str "AVOID") ]

/-- The legacy string-keyed `CONDITION_AVOID_EFFECTS` table of
`06_beers.js`, in declaration order. -/
def CONDITION_AVOID_EFFECTS : List (JsStr × ICD.AvoidEntry) :=
  [ (str "dementia", { effects := [str "anticholinergic", str "sedating"] }),
    (str "cognitive_impairment", { effects := [str "anticholinergic", str "sedating"] }),
    (str "delirium",
      { effects := [str "anticholinergic", str "sedating", str "dopamine_blocking"] }),
    (str "falls_history",
      { effects := [str "sedating", str "hypotensive", str "fall_risk"] }),
    (str "fracture_history",
      { effects := [str "sedating", str "hypotensive", str "fall_risk"] }),
    (str "heart_failure", { effects := [str "fluid_retention", str "nephrotoxic"] }),
    (str "syncope",
      { effects := [str "hypotensive", str "bradycardic", str "QT_prolonging"] }),
    (str "parkinson",
      { effects := [str "dopamine_blocking"],
        exclude_drugs := [str "quetiapine", str "clozapine"] }),
    (str "seizure_disorder", { effects := [str "seizure_lowering"] }),
    (str "gi_bleed_history", { effects := [str "GI_bleeding", str "antiplatelet"] }),
    (str "peptic_ulcer", { effects := [str "GI_bleeding"] }),
    (str "ckd_stage_4", { effects := [str "nephrotoxic"] }),
    (str "ckd_stage_5", { effects := [str "nephrotoxic"] }),
    (str "urinary_retention", { effects := [str "anticholinergic"] }),
    (str "bph", { effects := [str "anticholinergic"] }),
    (str "chronic_constipation",
      { effects := [str "anticholinergic", str "constipating"] }),
    (str "narrow_angle_glaucoma", { effects := [str "anticholinergic"] }),
    (str "QT_prolongation", { effects := [str "QT_prolonging"] }),
    (str "bradycardia", { effects := [str "bradycardic"] }),
    (str "orthostatic_hypotension", { effects := [str "hypotensive"] }),
    (str "insomnia", { effects := [] }) ]

/-- `CNS_ACTIVE_EFFECTS`. -/
def CNS_ACTIVE_EFFECTS : List JsStr := [str "opioid", str "sedating", str "fall_risk"]

/-- Result of the `getDrugEffects` resolution: an effect list together
with whether the unknown-drug side channel (`logUnknownDrug`) is notified,
or the inherited `Object.prototype` member leaked by the truthy exact-step
read for a reserved name (`constructor`, `__proto__` after lower-casing). -/
inductive EffectsRead where
  | list (effects : List JsStr) (notified : Bool)
  | protoMember
deriving DecidableEq, Repr

/-- Result of the `getACBScore` resolution: a numeric score, or the
inherited `Object.prototype` member leaked by the
`ACB_SCORES[name_lower] !== undefined` read for a reserved name. -/
inductive AcbRead where
  | score (n : Nat)
  | protoMember
deriving DecidableEq, Repr

/-- Embedding of `getDrugEffects`, also recording whether the unknown-drug
side channel is notified: the exact step is a truthy bracket read on the
lower-cased trimmed name (an own entry returns its effect list; an
`Object.prototype` property name returns the inherited non-string member);
a genuine miss scans the table in declaration order for the first
bidirectional-substring match, and failing that returns no effects, with
the notification fired only when the normalized name is longer than 2
characters. -/
def getDrugEffectsN (drugName : JsStr) : EffectsRead :=
  let name_lower := trimL (lowerL drugName)
  match objGet DRUG_EFFECTS name_lower with
  | .own effects => .list effects false
  | .inherited => .protoMember
  | .absent =>
      match DRUG_EFFECTS.find?
          (fun p => jsIncludes name_lower p.1 || jsIncludes p.1 name_lower) with
      | some p => .list p.2 false
      | none => .list [] (decide (2 < name_lower.length))

/-- The effect list used by the returning executions of
`BEERS_CRITERIA_CHECK`.  On a prototype hit the JS value is the inherited
non-string member, and every alert-producing consumer of it
(`effects.some`, `effects.filter`, `effects.includes`) throws a
`TypeError` before any alert is built — the module then fails as a whole
and is caught by the orchestrator — so within the returning-execution
model of the Beers module the projection reads such a resolution as the
empty effect list; `getDrugEffectsN` is the faithful read. -/
def getDrugEffects (drugName : JsStr) : List JsStr :=
  match getDrugEffectsN drugName with
  | .list effects _ => effects
  | .protoMember => []

/-- Embedding of `getACBScore`: the exact step is the
`ACB_SCORES[name_lower] !== undefined` read (an own entry returns its
score; an `Object.prototype` property name returns the inherited
non-numeric member); a genuine miss scans for the first
bidirectional-substring match, else 0. -/
def getACBScoreR (drugName : JsStr) : AcbRead :=
  let name_lower := trimL (lowerL drugName)
  match objGet ACB_SCORES name_lower with
  | .own s => .score s
  | .inherited => .protoMember
  | .absent =>
      match ACB_SCORES.find?
          (fun p => jsIncludes name_lower p.1 || jsIncludes p.1 name_lower) with
      | some p => .score p.2
      | none => .score 0

/-- The numeric score used by the returning executions of
`BEERS_CRITERIA_CHECK`.  A prototype hit happens exactly for the names on
which `getDrugEffectsN` also hits the prototype, and there the module
throws (at `effects.some`) before its accumulated total is ever reported,
so within the returning-execution model the projection reads such a
resolution as 0; `getACBScoreR` is the faithful read. -/
def getACBScore (drugName : JsStr) : Nat :=
  match getACBScoreR drugName with
  | .score s => s
  | .protoMember => 0

/-- Embedding of `getPIMInfo`: the first PIM entry related to the
lower-cased trimmed name by substring in either direction (no exact-match
step in the source). -/
def getPIMInfo (drugName : JsStr) : Option (JsStr × JsStr) :=
  let name_lower := trimL (lowerL drugName)
  PIM_DATABASE.find? (fun p => jsIncludes name_lower p.1 || jsIncludes p.1 name_lower)

end Beers

example : Beers.getDrugEffects (str "Oxycodone 10mg") = [str "opioid", str "sedating"] := by
  decide
example : Beers.getACBScore (str "clozapine") = 2 := by decide
example : Beers.getACBScore (str "amitriptyline") = 3 := by decide
example : Beers.getDrugEffectsN (str "qq") = .list [] false := by decide
example : Beers.getDrugEffectsN (str "zzz") = .list [] true := by decide
example : Beers.getDrugEffectsN (str "constructor") = .protoMember := by decide
example : Beers.getACBScoreR (str "Constructor") = .protoMember := by decide

/-- Modelled from the spec: the alert-code registry
(`constants/alert_codes.js` / `alert_codes.json`) is not among the
sources — only its consumers are.  Per the spec it is a closed registry of
named codes referenced as `ALERT_CODES.<CODE>`; the repository's own
registry checker matches codes by their `[A-Z0-9_]+` names, so each code is
modelled as the string of its name.  The verified properties depend only on
codes being fixed and pairwise distinct, not on their concrete spelling. -/
def ALERT_CODES (code : String) : JsStr := str code

namespace Beers

/-- One drug–disease interaction record of the analysis loop
(`condition_interactions`); its prose `reason` field is omitted. -/
structure InteractionRec where
  drug : JsStr
  condition : JsStr
  harmful_effects : List JsStr
deriving DecidableEq, Repr

/-- The ICD-derived contraindication check for one medication: effects that
are in the ICD avoid set, the conditions that triggered them, and the
per-condition drug exclusions (`quetiapine`/`clozapine` in Parkinson's). -/
def medInteractionsICD (derived : List JsStr) (icdAvoid : List JsStr)
    (byCond : List (JsStr × ICD.AvoidEntry)) (m : Medication) : List InteractionRec :=
  if icdAvoid = [] then []
  else
    let effects := getDrugEffects m.name
    let bad := effects.filter (fun e => icdAvoid.contains e)
    if bad = [] then []
    else
      let triggering := derived.filter fun c =>
        match List.lookup c byCond with
        | some info => bad.any (fun e => info.effects.contains e)
        | none => false
      let excluded := triggering.any fun c =>
        match List.lookup c byCond with
        | some info => info.exclude_drugs.any (fun ex => jsIncludes (lowerL m.name) ex)
        | none => false
      if excluded then []
      else [{ drug := m.name, condition := joinSep (str ", ") triggering,
              harmful_effects := bad }]

/-- The legacy string-condition contraindication check of one medication
against one condition string (one iteration of the inner loop; `none`
models `continue`). -/
def legacyRecOf (m : Medication) (c : JsStr) : Option InteractionRec :=
  match List.lookup c CONDITION_AVOID_EFFECTS with
  | none => none
  | some info =>
      let bad := (getDrugEffects m.name).filter (fun e => info.effects.contains e)
      if bad = [] then none
      else if info.exclude_drugs.any (fun ex => jsIncludes (lowerL m.name) ex) then none
      else some { drug := m.name, condition := c, harmful_effects := bad }

/-- The legacy string-condition contraindication check for one medication. -/
def medInteractionsLegacy (conditions : List JsStr) (m : Medication) :
    List InteractionRec :=
  conditions.filterMap (legacyRecOf m)

/-- Input slice of `BEERS_CRITERIA_CHECK` read by the embedded logic
(`egfr` is destructured but never used by the function body; the optional
`symptoms`/toxidrome path only adds metadata and is independent of the
medication-driven alerts). -/
structure BeersInput where
  patient_age : Int
  medications : List Medication := []
  conditions : List JsStr := []
  icd_codes : List JsStr := []
  ppi_duration_weeks : Option Int := none
deriving Repr

/-- Result of `BEERS_CRITERIA_CHECK`: the alerts plus the metadata fields
the verified properties read (`beers_applies`, `acb_score`; the early
return carries no `acb_score`, modelled as `none`). -/
structure BeersResult where
  alerts : List Alert
  beers_applies : Bool
  acb_score : Option Nat := none
deriving Repr

/-- Total anticholinergic burden: the sum of `getACBScore` over the
medication list (`acb_total += acb` in the analysis loop). -/
def acbTotal (medications : List Medication) : Nat :=
  (medications.map (fun m => getACBScore m.name)).sum

/-- The medications counted as CNS-active (effect set meets
`CNS_ACTIVE_EFFECTS`); its length is the loop's `cns_count` and its names
are the `drugs_involved` of the CNS-polypharmacy alert. -/
def cnsMeds (medications : List Medication) : List Medication :=
  medications.filter fun m =>
    (getDrugEffects m.name).any (fun e => CNS_ACTIVE_EFFECTS.contains e)

/-- All drug–disease interaction records of the analysis loop, per
medication in order: the ICD-derived check then the legacy-condition check. -/
def conditionInteractions (derived : List JsStr) (icdAvoid : List JsStr)
    (byCond : List (JsStr × ICD.AvoidEntry)) (conditions : List JsStr)
    (medications : List Medication) : List InteractionRec :=
  medications.flatMap fun m =>
    medInteractionsICD derived icdAvoid byCond m ++ medInteractionsLegacy conditions m

/-- PIM (Table 1) alerts: one per medication with a `getPIMInfo` hit, HIGH
for `AVOID` entries and MODERATE otherwise. -/
def pimAlerts (medications : List Medication) : List Alert :=
  (medications.filterMap fun m => (getPIMInfo m.name).map fun info => (m, info)).map
    fun p =>
      { alert_code := ALERT_CODES "BEERS_PIM_TABLE1",
        drug := some p.1.name,
        severity := if p.2.2 = str "AVOID" then str "HIGH" else str "MODERATE",
        message := str "Beers Criteria PIM: " ++ p.1.name }

/-- The drug–disease interaction alert built from one interaction record. -/
def interAlertOf (rec : InteractionRec) : Alert :=
  { alert_code := ALERT_CODES "BEERS_DISEASE_INTERACTION",
    drug := some rec.drug,
    condition := some rec.condition,
    harmful_effects := rec.harmful_effects,
    severity := str "HIGH",
    message := str "Beers: " ++ rec.drug ++ str " has " ++
      joinSep (str ", ") rec.harmful_effects ++
      str " effects - inappropriate with " ++ rec.condition }

/-- The anticholinergic-burden alert, fired at `acb_total >= 3`. -/
def acbAlerts (medications : List Medication) : List Alert :=
  if 3 ≤ acbTotal medications then
    [{ alert_code := ALERT_CODES "BEERS_ACB_HIGH",
       severity := str "HIGH",
       message := str "High Anticholinergic Burden (ACB Score: " ++
         natDec (acbTotal medications) ++ str ")" }]
  else []

/-- The CNS-polypharmacy alert, fired at `cns_count >= 3`. -/
def cnsAlerts (medications : List Medication) : List Alert :=
  if 3 ≤ (cnsMeds medications).length then
    [{ alert_code := ALERT_CODES "BEERS_CNS_POLYPHARMACY",
       drugs_involved := some ((cnsMeds medications).map Medication.name),
       severity := str "HIGH",
       message := str "CNS Polypharmacy: " ++ natDec (cnsMeds medications).length ++
         str " CNS-active medications" }]
  else []

/-- The long-term-PPI alert, fired when `ppi_duration_weeks > 8` (truthy)
and some medication resolves to `PPI_effects`. -/
def ppiAlerts (ppi_duration_weeks : Option Int) (medications : List Medication) :
    List Alert :=
  match ppi_duration_weeks with
  | some w =>
      if 8 < w ∧ medications.any
          (fun m => (getDrugEffects m.name).contains (str "PPI_effects")) then
        [{ alert_code := ALERT_CODES "BEERS_PPI_LONG_TERM",
           severity := str "MODERATE",
           message := str "PPI use >8 weeks without clear indication" }]
      else []
  | none => []

/-- The ICD-derived contraindication data: `getContraindicatedEffects` when
ICD codes were supplied, and the empty derivation otherwise. -/
def icdResult (icd_codes : List JsStr) : ICD.ContraResult :=
  if icd_codes = [] then ICD.ContraResult.mk [] [] []
  else ICD.getContraindicatedEffects icd_codes

/-- Embedding of `BEERS_CRITERIA_CHECK`. -/
def BEERS_CRITERIA_CHECK (input : BeersInput) : BeersResult :=
  if input.patient_age < 65 then { alerts := [], beers_applies := false }
  else
    let icdRes := icdResult input.icd_codes
    let interactions := conditionInteractions icdRes.conditionKeys icdRes.avoidEffects
      icdRes.byCondition input.conditions input.medications
    { alerts := pimAlerts input.medications ++ interactions.map interAlertOf ++
        acbAlerts input.medications ++ cnsAlerts input.medications ++
        ppiAlerts input.ppi_duration_weeks input.medications,
      beers_applies := true,
      acb_score := some (acbTotal input.medications) }

end Beers

example :
    (Beers.BEERS_CRITERIA_CHECK
      { patient_age := 70,
        medications := [⟨str "amitriptyline"⟩],
        conditions := [str "syncope"] }).alerts.map Alert.alert_code =
    [str "BEERS_PIM_TABLE1", str "BEERS_DISEASE_INTERACTION", str "BEERS_ACB_HIGH"] := by
  decide
example :
    (Beers.BEERS_CRITERIA_CHECK
      { patient_age := 70,
        medications := [⟨str "diphenhydramine"⟩],
        icd_codes := [str "G30.1"] }).alerts.map Alert.harmful_effects =
    [[], [str "anticholinergic", str "sedating"], []] := by decide
example :
    (Beers.BEERS_CRITERIA_CHECK { patient_age := 60 }).beers_applies = false := by decide

/-!
Embedding of `orchestrator.js` (`MED_SAFETY_ENGINE`).

The orchestrator consumes each rule module only through its returned
`result.alerts` or the exception it throws, so a module invocation is
embedded as its outcome — the alert list it returned, or the thrown
error's message.  Everything the orchestrator itself does (gating, source
relabelling, the catch-to-system-alert conversion, merging, deduplication,
sorting, summary counts) is embedded concretely.  `Date.now()` timings and
`function_results` metadata are not consulted by any verified property.
-/

namespace Orch

/-- `SEVERITY_ORDER`. -/
def SEVERITY_ORDER : List (JsStr × Nat) :=
  [ (str "CRITICAL", 1), (str "HIGH", 2), (str "MODERATE", 3),
    (str "LOW", 4), (str "INFO", 5) ]

/-- Severity rank with the sort's default: `SEVERITY_ORDER[a.severity] || 99`. -/
def rankD (a : Alert) : Nat := (List.lookup a.severity SEVERITY_ORDER).getD 99

/-- The deduplication key:
an alert's `${alert.alert_code || ""}:${alert.drug || ""}`, lower-cased. -/
def keyOf (a : Alert) : JsStr := lowerL (a.alert_code ++ str ":" ++ a.drug.getD [])

/-- First-seen-wins deduplication over a seen-key set (the JS `Map`:
`if (!seen.has(key)) seen.set(key, alert)`, then values in insertion
order). -/
def dedupAux (seen : List JsStr) : List Alert → List Alert
  | [] => []
  | a :: t =>
      if keyOf a ∈ seen then dedupAux seen t
      else a :: dedupAux (keyOf a :: seen) t

/-- The orchestrator's DEDUPLICATE step. -/
def dedupAlerts (l : List Alert) : List Alert := dedupAux [] l

/-- The sort's comparison: severity rank ascending. -/
def alertLE (a b : Alert) : Prop := rankD a ≤ rankD b

instance : DecidableRel alertLE := fun a b => Nat.decLe (rankD a) (rankD b)

instance : IsTotal Alert alertLE := ⟨fun a b => Nat.le_total (rankD a) (rankD b)⟩

instance : IsTrans Alert alertLE := ⟨fun _ _ _ h h2 => Nat.le_trans h h2⟩

/-- The orchestrator's SORT step.  `Array.prototype.sort` with the
comparator `(rank a) - (rank b)` is required by ECMAScript to be stable,
and a stable ascending sort by a total preorder is unique, so insertion
sort embeds it exactly. -/
def sortAlerts (l : List Alert) : List Alert := List.insertionSort alertLE l

/-- A rule-module invocation as the orchestrator sees it: the alerts the
module returned, or the message of the exception it threw. -/
inductive ModuleOutcome where
  | ok : List Alert → ModuleOutcome
  | err : JsStr → ModuleOutcome
deriving DecidableEq, Repr

/-- One module slot: the `source` label stamped on its alerts, the prefix
of the synthetic error message (`Renal:`, `Triple:`, …), and the outcome. -/
structure ModuleRun where
  src : JsStr
  pfx : JsStr
  outcome : ModuleOutcome
deriving DecidableEq, Repr

/-- Engine input: the patient fields the orchestrator itself inspects for
gating, plus the outcome of each of the six module invocations. -/
structure EngineInput where
  egfr : Option Int := none
  patient_age : Option Int := none
  renal : ModuleOutcome := .ok []
  triple : ModuleOutcome := .ok []
  opioid : ModuleOutcome := .ok []
  antithromb : ModuleOutcome := .ok []
  serotonin : ModuleOutcome := .ok []
  beers : ModuleOutcome := .ok []
deriving Repr

/-- Renal gate: `egfr !== null && egfr < 90`. -/
def renalGate : Option Int → Bool
  | some e => decide (e < 90)
  | none => false

/-- Beers gate: `patient_age >= 65` (false for an absent age). -/
def beersGate : Option Int → Bool
  | some a => decide (65 ≤ a)
  | none => false

/-- The module invocations the orchestrator performs, in execution order:
renal (gated on eGFR), the four always-run modules, and Beers (gated on
age). -/
def moduleRuns (inp : EngineInput) : List ModuleRun :=
  (if renalGate inp.egfr then [⟨str "RENAL", str "Renal", inp.renal⟩] else []) ++
  [⟨str "TRIPLE_WHAMMY", str "Triple", inp.triple⟩,
   ⟨str "OPIOID", str "Opioid", inp.opioid⟩,
   ⟨str "ANTITHROMB", str "Antithromb", inp.antithromb⟩,
   ⟨str "SEROTONIN", str "Serotonin", inp.serotonin⟩] ++
  (if beersGate inp.patient_age then [⟨str "BEERS", str "Beers", inp.beers⟩] else [])

/-- The synthetic alert a caught module exception is converted to. -/
def sysAlert (pfx msg : JsStr) : Alert :=
  { alert_code := ALERT_CODES "SYSTEM_FUNCTION_ERROR",
    severity := str "HIGH",
    message := pfx ++ str ": " ++ msg,
    source := some (str "SYSTEM") }

/-- Alerts one module slot contributes to the merge: its alerts with the
`source` label stamped on, or the single synthetic system alert. -/
def runOne (m : ModuleRun) : List Alert :=
  match m.outcome with
  | .ok alerts => alerts.map fun a => { a with source := some m.src }
  | .err msg => [sysAlert m.pfx msg]

/-- All alerts in merge order (`all_alerts` just before DEDUPLICATE). -/
def mergedAlerts (inp : EngineInput) : List Alert :=
  (moduleRuns inp).flatMap runOne

/-- The engine result fields derived from the final alert list. -/
structure EngineResult where
  alert_count : Nat
  critical_count : Nat
  high_count : Nat
  has_blocking_alerts : Bool
  alerts : List Alert
deriving Repr

/-- Embedding of `MED_SAFETY_ENGINE`: run the applicable modules, convert
exceptions, merge, deduplicate first-seen-wins, sort by severity rank, and
derive the summary counts. -/
def MED_SAFETY_ENGINE (inp : EngineInput) : EngineResult :=
  let sorted := sortAlerts (dedupAlerts (mergedAlerts inp))
  { alert_count := sorted.length,
    critical_count := (sorted.filter fun a => a.severity == str "CRITICAL").length,
    high_count := (sorted.filter fun a => a.severity == str "HIGH").length,
    has_blocking_alerts := sorted.any fun a => a.severity == str "CRITICAL",
    alerts := sorted }

end Orch

example :
    (Orch.MED_SAFETY_ENGINE
      { triple := .ok [{ alert_code := str "A", severity := str "LOW" }],
        opioid := .err (str "boom") }).alerts.map Alert.severity =
    [str "HIGH", str "LOW"] := by decide
example :
    (Orch.MED_SAFETY_ENGINE
      { triple := .err (str "x"), opioid := .err (str "y") }).alert_count = 1 := by decide

/-!
Lemmas about the string model, used to settle the vocabulary claims.
-/

/-- Lower-casing a code point twice is the same as once. -/
theorem lowerCp_idem (c : Nat) : lowerCp (lowerCp c) = lowerCp c := by
  unfold lowerCp
  split_ifs <;> omega

/-- Lower-casing a JS string twice is the same as once. -/
theorem lowerL_idem (l : JsStr) : lowerL (lowerL l) = lowerL l := by
  induction l with
  | nil => rfl
  | cons a t ih => simp only [lowerL, List.map_cons] at *; rw [lowerCp_idem]; simpa using ih

/-- Lower-casing preserves white-space-ness of a code point. -/
theorem wsB_lowerCp (c : Nat) : wsB (lowerCp c) = wsB c := by
  unfold lowerCp
  split_ifs with h
  · have h1 : wsB c = false := by simp only [wsB]; simp; omega
    have h2 : wsB (c + 32) = false := by simp only [wsB]; simp; omega
    rw [h1, h2]
  · rfl

/-- The head surviving `dropWhile` fails the predicate. -/
theorem dropWhile_head_false {p : Nat → Bool} {l : JsStr} {h : Nat} {t : JsStr}
    (hyp : l.dropWhile p = h :: t) : p h = false := by
  induction l generalizing h t with
  | nil => simp [List.dropWhile] at hyp
  | cons a l ih =>
      rw [List.dropWhile_cons] at hyp
      by_cases ha : p a
      · rw [if_pos (by simp [ha])] at hyp; exact ih hyp
      · rw [if_neg (by simp [ha])] at hyp
        cases hyp
        simpa using ha

/-- `dropWhile` is the identity when the head already fails the predicate. -/
theorem dropWhile_eq_self_of_head {p : Nat → Bool} {l : JsStr}
    (h : ∀ c ∈ l.head?, p c = false) : l.dropWhile p = l := by
  cases l with
  | nil => rfl
  | cons a t =>
      have ha : p a = false := h a (by simp)
      rw [List.dropWhile_cons, if_neg (by simp [ha])]

/-- `dropWhile` returns a suffix. -/
theorem dropWhile_suffix_decomp (p : Nat → Bool) (l : JsStr) :
    ∃ s, l = s ++ l.dropWhile p := by
  induction l with
  | nil => exact ⟨[], rfl⟩
  | cons a t ih =>
      by_cases ha : p a
      · obtain ⟨s, hs⟩ := ih
        exact ⟨a :: s, by rw [List.dropWhile_cons, if_pos (by simp [ha])]
                          simpa using hs⟩
      · exact ⟨[], by rw [List.dropWhile_cons, if_neg (by simp [ha])]; rfl⟩

/-- The head of a trimmed string is not white space. -/
theorem trimL_head (l : JsStr) : ∀ c ∈ (trimL l).head?, wsB c = false := by
  intro c hc
  unfold trimL at hc
  rw [List.head?_reverse] at hc
  set M := ((l.dropWhile wsB).reverse.dropWhile wsB) with hM
  cases hMc : M with
  | nil => rw [hMc] at hc; simp at hc
  | cons m t =>
      obtain ⟨s, hs⟩ := dropWhile_suffix_decomp wsB (l.dropWhile wsB).reverse
      rw [← hM, hMc] at hs
      rw [hMc] at hc
      have hlast : ((l.dropWhile wsB).reverse).getLast? = some c := by
        rw [hs, List.getLast?_append_of_ne_nil _ (by simp)]
        simpa using hc
      rw [List.getLast?_reverse] at hlast
      cases hD : l.dropWhile wsB with
      | nil => rw [hD] at hlast; simp at hlast
      | cons d t2 =>
          rw [hD] at hlast
          simp only [List.head?_cons, Option.some.injEq] at hlast
          subst hlast
          exact dropWhile_head_false hD

/-- The last code point of a trimmed string is not white space. -/
theorem trimL_last (l : JsStr) : ∀ c ∈ (trimL l).getLast?, wsB c = false := by
  intro c hc
  unfold trimL at hc
  rw [List.getLast?_reverse] at hc
  cases hMc : ((l.dropWhile wsB).reverse.dropWhile wsB) with
  | nil => rw [hMc] at hc; simp at hc
  | cons m t =>
      rw [hMc] at hc
      simp only [List.head?_cons, Option.mem_def, Option.some.injEq] at hc
      subst hc
      exact dropWhile_head_false hMc

/-- `trim` is the identity on a string with no leading or trailing white
space. -/
theorem trimL_eq_self {l : JsStr} (h1 : ∀ c ∈ l.head?, wsB c = false)
    (h2 : ∀ c ∈ l.getLast?, wsB c = false) : trimL l = l := by
  unfold trimL
  rw [dropWhile_eq_self_of_head h1]
  rw [dropWhile_eq_self_of_head (by intro c hc; rw [List.head?_reverse] at hc; exact h2 c hc)]
  exact List.reverse_reverse l

/-- JS `trim` is idempotent. -/
theorem trimL_idem (l : JsStr) : trimL (trimL l) = trimL l :=
  trimL_eq_self (trimL_head l) (trimL_last l)

/-- Lower-casing a trimmed string leaves it trimmed. -/
theorem trimL_lowerL_trimL (l : JsStr) :
    trimL (lowerL (trimL l)) = lowerL (trimL l) := by
  apply trimL_eq_self
  · intro c hc
    simp only [lowerL, List.head?_map, Option.mem_def, Option.map_eq_some'] at hc
    obtain ⟨c0, hc0, rfl⟩ := hc
    rw [wsB_lowerCp]
    exact trimL_head l c0 hc0
  · intro c hc
    simp only [lowerL, List.getLast?_map, Option.mem_def, Option.map_eq_some'] at hc
    obtain ⟨c0, hc0, rfl⟩ := hc
    rw [wsB_lowerCp]
    exact trimL_last l c0 hc0

/-- A successful association-list lookup is a member. -/
theorem lookup_mem {α β : Type} [BEq α] [LawfulBEq α] {l : List (α × β)} {a : α} {b : β}
    (h : List.lookup a l = some b) : (a, b) ∈ l := by
  induction l with
  | nil => simp [List.lookup] at h
  | cons p t ih =>
      obtain ⟨k, v⟩ := p
      rw [List.lookup_cons] at h
      cases hk : (a == k) with
      | true =>
          rw [hk] at h
          simp only [Option.some.injEq] at h
          subst h
          have : a = k := by simpa using hk
          subst this
          exact List.mem_cons_self _ _
      | false =>
          rw [hk] at h
          exact List.mem_cons_of_mem _ (ih h)

/-- An own-property read is a successful association-list lookup. -/
theorem objGet_own {α : Type} {t : List (JsStr × α)} {k : JsStr} {v : α}
    (h : objGet t k = .own v) : List.lookup k t = some v := by
  unfold objGet at h
  cases hl : List.lookup k t with
  | some w => rw [hl] at h; simp at h; rw [h]
  | none => rw [hl] at h; split_ifs at h

/-- An inherited read means the key is an `Object.prototype` name. -/
theorem objGet_inherited {α : Type} {t : List (JsStr × α)} {k : JsStr}
    (h : objGet t k = .inherited) : k ∈ OBJECT_PROTO_KEYS := by
  unfold objGet at h
  cases hl : List.lookup k t with
  | some w => rw [hl] at h; simp at h
  | none =>
      rw [hl] at h
      split_ifs at h with hk
      exact hk

/-- Every value stored in the alias map is a fixed point of normalization. -/
theorem alias_values_fixed :
    ∀ p ∈ ALIAS_TO_CANONICAL, normEffectTag (.s p.2) = .s p.2 := by decide

/-- A fully lower-case key of the alias map maps to itself. -/
theorem alias_lower_keys_selfmap :
    ∀ p ∈ ALIAS_TO_CANONICAL, lowerL p.1 = p.1 → p.2 = p.1 := by decide

/-- Every value stored in the alias map is a canonical tag. -/
theorem alias_values_allowed :
    ∀ p ∈ ALIAS_TO_CANONICAL, p.2 ∈ ALLOWED_EFFECTS := by decide

/-- C9, counterexample: normalization is not idempotent on every string.
The trimmed tag `constructor` hits the `Object.prototype` chain in the
truthy alias-map read, so `normEffectTag` returns the inherited non-string
member — not the lower-cased fallback — and normalizing that result gives
the empty string; the tag `CONSTRUCTOR` misses the map, falls back to
lower-case `constructor`, and its second normalization again leaks the
inherited member. -/
theorem normEffectTag_proto_counterexample :
    normEffectTag (.s (str "constructor")) = .protoMember ∧
    normEffectTag (normEffectTag (.s (str "constructor"))) = .s [] ∧
    normEffectTag (normEffectTag (.s (str "constructor"))) ≠
      normEffectTag (.s (str "constructor")) ∧
    normEffectTag (.s (str "constructor")) ≠
      .s (lowerL (trimL (str "constructor"))) ∧
    normEffectTag (.s (str "CONSTRUCTOR")) = .s (str "constructor") ∧
    normEffectTag (normEffectTag (.s (str "CONSTRUCTOR"))) = .protoMember ∧
    normEffectTag (normEffectTag (.s (str "CONSTRUCTOR"))) ≠
      normEffectTag (.s (str "CONSTRUCTOR")) := by decide

/-- C9, amended: normalization never throws (the embedding is a total
function, as the source has no throwing operation), and on every string
whose trimmed form and lower-cased trimmed form are not
`Object.prototype` property names it is idempotent; on such strings,
input not resolving to a canonical tag comes out as the generic
lower-cased trimmed fallback, which `isValidEffect` rejects.  (The
reserved names themselves leak the inherited member and break
idempotence, per the counterexample.) -/
theorem normEffectTag_idempotent_total (x : JsStr)
    (hp1 : trimL x ∉ OBJECT_PROTO_KEYS)
    (hp2 : lowerL (trimL x) ∉ OBJECT_PROTO_KEYS) :
    normEffectTag (normEffectTag (.s x)) = normEffectTag (.s x) ∧
    ∀ v, normEffectTag (.s x) = .s v → v ∉ ALLOWED_EFFECTS →
      v = lowerL (trimL x) ∧ isValidEffect v = false := by
  by_cases hx : x = []
  · subst hx
    refine ⟨rfl, fun v hv hno => ?_⟩
    have hv2 : v = [] := by
      have : EffTagVal.s [] = EffTagVal.s v := hv
      injection this with h
      exact h.symm
    subst hv2
    exact ⟨rfl, rfl⟩
  · cases hobj : objGet ALIAS_TO_CANONICAL (trimL x) with
    | own c =>
        have hx1 : normEffectTag (.s x) = .s c := by simp [normEffectTag, hx, hobj]
        have hmem := lookup_mem (objGet_own hobj)
        refine ⟨?_, fun v hv hno => ?_⟩
        · rw [hx1]; exact alias_values_fixed _ hmem
        · rw [hx1] at hv
          injection hv with hv
          subst hv
          exact absurd (alias_values_allowed _ hmem) hno
    | inherited => exact absurd (objGet_inherited hobj) hp1
    | absent =>
        have hx1 : normEffectTag (.s x) = .s (lowerL (trimL x)) := by
          simp [normEffectTag, hx, hobj]
        have hfix : normEffectTag (.s (lowerL (trimL x))) = .s (lowerL (trimL x)) := by
          by_cases hr : lowerL (trimL x) = []
          · rw [hr]; rfl
          · have htr : trimL (lowerL (trimL x)) = lowerL (trimL x) := trimL_lowerL_trimL x
            cases hobj2 : objGet ALIAS_TO_CANONICAL (trimL (lowerL (trimL x))) with
            | own v =>
                have hv := lookup_mem (objGet_own hobj2)
                rw [htr] at hv
                have hvr : v = lowerL (trimL x) :=
                  alias_lower_keys_selfmap _ hv (by rw [lowerL_idem])
                simp [normEffectTag, hr, hobj2, hvr]
            | inherited =>
                have := objGet_inherited hobj2
                rw [htr] at this
                exact absurd this hp2
            | absent =>
                rw [htr] at hobj2
                simp [normEffectTag, hr, hobj2, htr, lowerL_idem]
        refine ⟨by rw [hx1, hfix], fun v hv hno => ?_⟩
        rw [hx1] at hv
        injection hv with hv
        subst hv
        refine ⟨rfl, ?_⟩
        unfold isValidEffect
        by_cases hr : lowerL (trimL x) = []
        · rw [if_pos hr]
        · rw [if_neg hr, hfix]
          simpa using hno

/-- Witness for the amended C9 theorem at a concrete unresolvable tag. -/
theorem normEffectTag_idempotent_total_witness :
    normEffectTag (normEffectTag (.s (str "Unknown Tag"))) =
      normEffectTag (.s (str "Unknown Tag")) ∧
    (str "unknown tag" = lowerL (trimL (str "Unknown Tag")) ∧
      isValidEffect (str "unknown tag") = false) :=
  ⟨(normEffectTag_idempotent_total (str "Unknown Tag") (by decide) (by decide)).1,
   (normEffectTag_idempotent_total (str "Unknown Tag") (by decide) (by decide)).2
     (str "unknown tag") (by decide) (by decide)⟩


/-!
Structural facts about the Beers alert list, used by the vocabulary and
unknown-drug claims.
-/

namespace Beers

/-- An ICD-branch interaction record names the analysed medication and its
harmful effects are a nonempty selection of that drug's stored effects. -/
theorem mem_medInteractionsICD_facts {derived icdAvoid : List JsStr}
    {byCond : List (JsStr × ICD.AvoidEntry)} {m : Medication} {rec : InteractionRec}
    (h : rec ∈ medInteractionsICD derived icdAvoid byCond m) :
    rec.drug = m.name ∧ rec.harmful_effects ≠ [] ∧
      ∀ e ∈ rec.harmful_effects, e ∈ getDrugEffects m.name := by
  simp only [medInteractionsICD] at h
  split_ifs at h with h1 h2 h3
  · simp at h
  · simp at h
  · simp at h
  · simp only [List.mem_singleton] at h
    subst h
    refine ⟨rfl, h2, fun e he => ?_⟩
    exact (List.mem_filter.mp he).1

/-- One legacy-condition check yields a record naming the analysed
medication, with a nonempty selection of that drug's stored effects. -/
theorem legacyRecOf_facts {m : Medication} {c : JsStr} {rec : InteractionRec}
    (h : legacyRecOf m c = some rec) :
    rec.drug = m.name ∧ rec.harmful_effects ≠ [] ∧
      ∀ e ∈ rec.harmful_effects, e ∈ getDrugEffects m.name := by
  unfold legacyRecOf at h
  cases hl : List.lookup c CONDITION_AVOID_EFFECTS with
  | none => rw [hl] at h; simp at h
  | some info =>
      rw [hl] at h
      simp only [] at h
      split at h
      · exact absurd h (by simp)
      · split at h
        · exact absurd h (by simp)
        · rename_i h1 h2
          injection h with h
          subst h
          refine ⟨rfl, h1, fun e he => ?_⟩
          exact (List.mem_filter.mp he).1

/-- Any interaction record of the analysis loop carries a nonempty
selection of its drug's stored effects, verbatim. -/
theorem mem_conditionInteractions_facts {derived icdAvoid : List JsStr}
    {byCond : List (JsStr × ICD.AvoidEntry)} {conditions : List JsStr}
    {medications : List Medication} {rec : InteractionRec}
    (h : rec ∈ conditionInteractions derived icdAvoid byCond conditions medications) :
    rec.harmful_effects ≠ [] ∧ ∀ e ∈ rec.harmful_effects, e ∈ getDrugEffects rec.drug := by
  simp only [conditionInteractions, List.mem_flatMap, List.mem_append] at h
  obtain ⟨m, _, h | h⟩ := h
  · obtain ⟨hd, hne, hsub⟩ := mem_medInteractionsICD_facts h
    exact ⟨hne, by rw [hd]; exact hsub⟩
  · rw [medInteractionsLegacy, List.mem_filterMap] at h
    obtain ⟨c, _, hc⟩ := h
    obtain ⟨hd, hne, hsub⟩ := legacyRecOf_facts hc
    exact ⟨hne, by rw [hd]; exact hsub⟩

/-- Every alert of `BEERS_CRITERIA_CHECK` emits its `harmful_effects` tags
verbatim from the stored effect table of the drug it names, and every
drug–disease interaction alert names a drug whose stored effect set is
nonempty. -/
theorem beers_alert_facts (input : BeersInput) :
    ∀ a ∈ (BEERS_CRITERIA_CHECK input).alerts,
      (∀ e ∈ a.harmful_effects, ∃ d, a.drug = some d ∧ e ∈ getDrugEffects d) ∧
      (a.alert_code = ALERT_CODES "BEERS_DISEASE_INTERACTION" →
        ∃ d, a.drug = some d ∧ getDrugEffects d ≠ []) := by
  intro a ha
  unfold BEERS_CRITERIA_CHECK at ha
  split_ifs at ha with hage
  · simp at ha
  · simp only [List.mem_append] at ha
    rcases ha with ((((ha | ha) | ha) | ha) | ha)
    · simp only [pimAlerts, List.mem_map] at ha
      obtain ⟨p, _, rfl⟩ := ha
      refine ⟨fun e he => absurd he (by simp), fun hcode => ?_⟩
      have hc : str "BEERS_PIM_TABLE1" = str "BEERS_DISEASE_INTERACTION" := hcode
      exact absurd hc (by decide)
    · simp only [List.mem_map] at ha
      obtain ⟨rec, hrec, rfl⟩ := ha
      obtain ⟨hne, hsub⟩ := mem_conditionInteractions_facts hrec
      refine ⟨fun e he => ⟨rec.drug, rfl, hsub e he⟩,
              fun _ => ⟨rec.drug, rfl, fun hempty => ?_⟩⟩
      cases hre : rec.harmful_effects with
      | nil => exact hne hre
      | cons e t =>
          have hmem : e ∈ rec.harmful_effects := by rw [hre]; simp
          have he2 := hsub e hmem
          rw [hempty] at he2
          simp at he2
    · simp only [acbAlerts] at ha
      split_ifs at ha
      · simp only [List.mem_singleton] at ha
        subst ha
        refine ⟨fun e he => absurd he (by simp), fun hcode => ?_⟩
        have hc : str "BEERS_ACB_HIGH" = str "BEERS_DISEASE_INTERACTION" := hcode
        exact absurd hc (by decide)
      · simp at ha
    · simp only [cnsAlerts] at ha
      split_ifs at ha
      · simp only [List.mem_singleton] at ha
        subst ha
        refine ⟨fun e he => absurd he (by simp), fun hcode => ?_⟩
        have hc : str "BEERS_CNS_POLYPHARMACY" = str "BEERS_DISEASE_INTERACTION" := hcode
        exact absurd hc (by decide)
      · simp at ha
    · simp only [ppiAlerts] at ha
      split at ha
      · split_ifs at ha
        · simp only [List.mem_singleton] at ha
          subst ha
          refine ⟨fun e he => absurd he (by simp), fun hcode => ?_⟩
          have hc : str "BEERS_PPI_LONG_TERM" = str "BEERS_DISEASE_INTERACTION" := hcode
          exact absurd hc (by decide)
        · simp at ha
      · simp at ha

end Beers

/-- C2, counterexample: the legacy alias `QT_prolonging` is stored verbatim
inside the drug-effect table (it is not a member of the canonical
vocabulary and normalization rewrites it), the tag `neurotoxic` stored for
meperidine is not in the vocabulary at all, and a drug–disease interaction
alert emits the alias form in its `harmful_effects`. -/
theorem effect_vocabulary_violation_counterexample :
    str "QT_prolonging" ∈ Beers.getDrugEffects (str "amitriptyline") ∧
    str "QT_prolonging" ∉ ALLOWED_EFFECTS ∧
    normEffectTag (.s (str "QT_prolonging")) ≠ .s (str "QT_prolonging") ∧
    str "neurotoxic" ∈ Beers.getDrugEffects (str "meperidine") ∧
    isValidEffect (str "neurotoxic") = false ∧
    ∃ a ∈ (Beers.BEERS_CRITERIA_CHECK
        { patient_age := 70, medications := [⟨str "amitriptyline"⟩],
          conditions := [str "syncope"] }).alerts,
      str "QT_prolonging" ∈ a.harmful_effects := by decide

/-- C2, amended: effect tags are not canonicalized internally — every
`harmful_effects` tag emitted by a drug–disease interaction alert is taken
verbatim from the stored drug-effect table of the drug the alert names,
and the stored tables themselves contain tags outside the canonical
vocabulary (legacy alias forms and unlisted tags). -/
theorem beers_effect_tags_emitted_verbatim :
    (∀ input : Beers.BeersInput, ∀ a ∈ (Beers.BEERS_CRITERIA_CHECK input).alerts,
        ∀ e ∈ a.harmful_effects, ∃ d, a.drug = some d ∧ e ∈ Beers.getDrugEffects d) ∧
    (∃ d e, e ∈ Beers.getDrugEffects d ∧ e ∉ ALLOWED_EFFECTS) := by
  refine ⟨fun input a ha => (Beers.beers_alert_facts input a ha).1, ?_⟩
  exact ⟨str "amitriptyline", str "QT_prolonging", by decide, by decide⟩

/-- Witness for the amended C2 theorem at a concrete evaluation. -/
theorem beers_effect_tags_emitted_verbatim_witness :
    ∃ d,
      ((Beers.BEERS_CRITERIA_CHECK
          { patient_age := 70, medications := [⟨str "amitriptyline"⟩],
            conditions := [str "syncope"] }).alerts.getD 1
        { alert_code := [], severity := [] }).drug = some d ∧
      str "QT_prolonging" ∈ Beers.getDrugEffects d :=
  beers_effect_tags_emitted_verbatim.1
    { patient_age := 70, medications := [⟨str "amitriptyline"⟩],
      conditions := [str "syncope"] } _ (by decide) (str "QT_prolonging") (by decide)

/-!
Membership characterization of the ICD condition derivation.
-/

namespace ICD

/-- Membership in a set-accumulating append. -/
theorem mem_addUnique {acc xs : List JsStr} {c : JsStr} :
    c ∈ addUnique acc xs ↔ c ∈ acc ∨ c ∈ xs := by
  induction xs generalizing acc with
  | nil => simp [addUnique]
  | cons x t ih =>
      simp only [addUnique, List.foldl_cons] at *
      rw [ih]
      by_cases hx : x ∈ acc
      · rw [if_pos hx]
        constructor
        · rintro (h | h)
          · exact Or.inl h
          · exact Or.inr (List.mem_cons_of_mem _ h)
        · rintro (h | h)
          · exact Or.inl h
          · rcases List.mem_cons.mp h with rfl | h
            · exact Or.inl hx
            · exact Or.inr h
      · rw [if_neg hx]
        constructor
        · rintro (h | h)
          · rcases List.mem_append.mp h with h | h
            · exact Or.inl h
            · exact Or.inr (by simpa using List.mem_cons.mpr (Or.inl (by simpa using h)))
          · exact Or.inr (List.mem_cons_of_mem _ h)
        · rintro (h | h)
          · exact Or.inl (List.mem_append.mpr (Or.inl h))
          · rcases List.mem_cons.mp h with rfl | h
            · exact Or.inl (by simp)
            · exact Or.inr h

/-- The probed lengths for a code of length `L ≥ 3` are exactly `3..L`. -/
theorem mem_probeLens {L n : Nat} (hL : 3 ≤ L) : n ∈ probeLens L ↔ 3 ≤ n ∧ n ≤ L := by
  simp only [probeLens, List.mem_map, List.mem_range]
  constructor
  · rintro ⟨i, hi, rfl⟩
    omega
  · rintro ⟨h3, hn⟩
    exact ⟨L - n, by omega, by omega⟩

/-- Membership in the conditions matched by one normalized code. -/
theorem mem_probeCode {code : JsStr} {c : JsStr} (h : 3 ≤ code.length) :
    c ∈ probeCode code ↔
      ∃ n, 3 ≤ n ∧ n ≤ code.length ∧ c ∈ indexConditions (code.take n) := by
  simp only [probeCode, List.mem_flatMap]
  constructor
  · rintro ⟨n, hn, hc⟩
    obtain ⟨h3, hL⟩ := (mem_probeLens h).mp hn
    exact ⟨n, h3, hL, hc⟩
  · rintro ⟨n, h3, hL, hc⟩
    exact ⟨n, (mem_probeLens h).mpr ⟨h3, hL⟩, hc⟩

/-- Membership in the derivation fold, generalized over the accumulator. -/
theorem mem_derive_foldl {codes : List JsStr} {acc : List JsStr} {c : JsStr} :
    c ∈ codes.foldl
        (fun conditions raw =>
          let code := normICD raw
          if code.length < 3 then conditions
          else addUnique conditions (probeCode code)) acc ↔
      c ∈ acc ∨ ∃ raw ∈ codes, 3 ≤ (normICD raw).length ∧ c ∈ probeCode (normICD raw) := by
  induction codes generalizing acc with
  | nil => simp
  | cons raw t ih =>
      simp only [List.foldl_cons]
      rw [ih]
      by_cases hlen : (normICD raw).length < 3
      · simp only [if_pos hlen]
        constructor
        · rintro (h | h)
          · exact Or.inl h
          · exact Or.inr (by obtain ⟨r, hr, hc⟩ := h; exact ⟨r, List.mem_cons_of_mem _ hr, hc⟩)
        · rintro (h | ⟨r, hr, h3, hc⟩)
          · exact Or.inl h
          · rcases List.mem_cons.mp hr with rfl | hr
            · omega
            · exact Or.inr ⟨r, hr, h3, hc⟩
      · simp only [if_neg hlen]
        constructor
        · rintro (h | h)
          · rcases mem_addUnique.mp h with h | h
            · exact Or.inl h
            · exact Or.inr ⟨raw, List.mem_cons_self _ _, by omega, h⟩
          · exact Or.inr (by obtain ⟨r, hr, hc⟩ := h; exact ⟨r, List.mem_cons_of_mem _ hr, hc⟩)
        · rintro (h | ⟨r, hr, h3, hc⟩)
          · exact Or.inl (mem_addUnique.mpr (Or.inl h))
          · rcases List.mem_cons.mp hr with rfl | hr
            · exact Or.inl (mem_addUnique.mpr (Or.inr hc))
            · exact Or.inr ⟨r, hr, h3, hc⟩

end ICD

/-- C6: condition derivation normalizes each diagnosis code, skips codes
whose normalized length is below 3, probes every prefix of the normalized
code from its full length down to length 3 against the precomputed
prefix-to-conditionKeys index, and unions the matches over all input
codes; concretely, code I5032 yields heart_failure through its prefix I50
and code G311 yields dementia through its prefix G31. -/
theorem deriveConditions_characterization :
    (∀ codes c, c ∈ ICD.deriveConditionsFromICD codes ↔
      ∃ raw ∈ codes, 3 ≤ (ICD.normICD raw).length ∧
        ∃ n, 3 ≤ n ∧ n ≤ (ICD.normICD raw).length ∧
          c ∈ ICD.indexConditions ((ICD.normICD raw).take n)) ∧
    str "heart_failure" ∈ ICD.deriveConditionsFromICD [str "I5032"] ∧
    str "heart_failure" ∈ ICD.indexConditions (str "I50") ∧
    str "dementia" ∈ ICD.deriveConditionsFromICD [str "G311"] ∧
    str "dementia" ∈ ICD.indexConditions (str "G31") := by
  refine ⟨fun codes c => ?_, by decide, by decide, by decide, by decide⟩
  rw [ICD.deriveConditionsFromICD, ICD.mem_derive_foldl]
  constructor
  · rintro (h | ⟨r, hr, h3, hc⟩)
    · simp at h
    · exact ⟨r, hr, h3, (ICD.mem_probeCode h3).mp hc⟩
  · rintro ⟨r, hr, h3, hn⟩
    exact Or.inr ⟨r, hr, h3, (ICD.mem_probeCode h3).mpr hn⟩

/-- Witness for C6: instantiating the characterization at code I5032 and
key heart_failure produces the matching prefix length. -/
theorem deriveConditions_characterization_witness :
    ∃ raw ∈ [str "I5032"], 3 ≤ (ICD.normICD raw).length ∧
      ∃ n, 3 ≤ n ∧ n ≤ (ICD.normICD raw).length ∧
        str "heart_failure" ∈ ICD.indexConditions ((ICD.normICD raw).take n) :=
  (deriveConditions_characterization.1 [str "I5032"] (str "heart_failure")).mp (by decide)

namespace Beers

/-- The alert list of an applicable Beers evaluation, decomposed into its
five segments in emission order. -/
theorem beers_alerts_eq (input : BeersInput) (hage : ¬ input.patient_age < 65) :
    (BEERS_CRITERIA_CHECK input).alerts =
      pimAlerts input.medications ++
      (conditionInteractions (icdResult input.icd_codes).conditionKeys
        (icdResult input.icd_codes).avoidEffects (icdResult input.icd_codes).byCondition
        input.conditions input.medications).map interAlertOf ++
      acbAlerts input.medications ++ cnsAlerts input.medications ++
      ppiAlerts input.ppi_duration_weeks input.medications := by
  unfold BEERS_CRITERIA_CHECK
  rw [if_neg hage]

/-- The reported ACB score of an applicable Beers evaluation. -/
theorem beers_acb_score_eq (input : BeersInput) (hage : ¬ input.patient_age < 65) :
    (BEERS_CRITERIA_CHECK input).acb_score = some (acbTotal input.medications) := by
  unfold BEERS_CRITERIA_CHECK
  rw [if_neg hage]

end Beers

/-- C7, counterexample: the original claim fails in two ways.  The
two-character name `qq` is matched by neither resolution step of either
table (no exact hit — own or inherited —, no substring relation to any
entry), resolves to the empty effect set and ACB 0, and yet does not
trigger the unknown-drug notification, because `getDrugEffects` only
calls `logUnknownDrug` for normalized names longer than 2 characters.
And the name `constructor`, also matched by neither genuine table entry,
does not yield the empty set and 0 at all: the truthy exact-step reads
hit the `Object.prototype` chain and return the inherited member. -/
theorem unknown_drug_notification_counterexample :
    objGet Beers.DRUG_EFFECTS (trimL (lowerL (str "qq"))) = .absent ∧
    (∀ p ∈ Beers.DRUG_EFFECTS,
      jsIncludes (trimL (lowerL (str "qq"))) p.1 = false ∧
      jsIncludes p.1 (trimL (lowerL (str "qq"))) = false) ∧
    (∀ p ∈ Beers.ACB_SCORES,
      jsIncludes (trimL (lowerL (str "qq"))) p.1 = false ∧
      jsIncludes p.1 (trimL (lowerL (str "qq"))) = false) ∧
    Beers.getDrugEffectsN (str "qq") = .list [] false ∧
    Beers.getACBScore (str "qq") = 0 ∧
    (∀ p ∈ Beers.DRUG_EFFECTS,
      jsIncludes (trimL (lowerL (str "constructor"))) p.1 = false ∧
      jsIncludes p.1 (trimL (lowerL (str "constructor"))) = false) ∧
    List.lookup (trimL (lowerL (str "constructor"))) Beers.DRUG_EFFECTS = none ∧
    Beers.getDrugEffectsN (str "constructor") = .protoMember ∧
    Beers.getACBScoreR (str "constructor") = .protoMember := by decide

/-- C7, amended: a drug name on which the truthy exact-step read is a
genuine miss in both tables (no own entry, and not an
`Object.prototype` property name — reserved names such as `constructor`
instead leak the inherited member, on which the alert-producing callers
throw) and which the substring scans also miss, yields the empty effect
set and ACB score 0 (the embedding is a total function, mirroring that
the resolution functions themselves never throw), triggers the
side-channel unknown-drug notification exactly when the lower-cased
trimmed name is longer than 2 characters, and never appears as the drug
of a drug–disease interaction alert. -/
theorem unknown_drug_resolution (name : JsStr)
    (h1 : objGet Beers.DRUG_EFFECTS (trimL (lowerL name)) = .absent)
    (h2 : ∀ p ∈ Beers.DRUG_EFFECTS,
      jsIncludes (trimL (lowerL name)) p.1 = false ∧
      jsIncludes p.1 (trimL (lowerL name)) = false)
    (h3 : objGet Beers.ACB_SCORES (trimL (lowerL name)) = .absent)
    (h4 : ∀ p ∈ Beers.ACB_SCORES,
      jsIncludes (trimL (lowerL name)) p.1 = false ∧
      jsIncludes p.1 (trimL (lowerL name)) = false) :
    Beers.getDrugEffectsN name =
      .list [] (decide (2 < (trimL (lowerL name)).length)) ∧
    Beers.getACBScoreR name = .score 0 ∧
    Beers.getDrugEffects name = [] ∧
    Beers.getACBScore name = 0 ∧
    ∀ input : Beers.BeersInput, ∀ a ∈ (Beers.BEERS_CRITERIA_CHECK input).alerts,
      a.alert_code = ALERT_CODES "BEERS_DISEASE_INTERACTION" → a.drug ≠ some name := by
  have hfindE : Beers.DRUG_EFFECTS.find?
      (fun p => jsIncludes (trimL (lowerL name)) p.1 ||
        jsIncludes p.1 (trimL (lowerL name))) = none := by
    rw [List.find?_eq_none]
    intro p hp
    rw [(h2 p hp).1, (h2 p hp).2]
    simp
  have hfindA : Beers.ACB_SCORES.find?
      (fun p => jsIncludes (trimL (lowerL name)) p.1 ||
        jsIncludes p.1 (trimL (lowerL name))) = none := by
    rw [List.find?_eq_none]
    intro p hp
    rw [(h4 p hp).1, (h4 p hp).2]
    simp
  have hN : Beers.getDrugEffectsN name =
      .list [] (decide (2 < (trimL (lowerL name)).length)) := by
    simp only [Beers.getDrugEffectsN]
    rw [h1, hfindE]
  have hE : Beers.getDrugEffects name = [] := by
    unfold Beers.getDrugEffects
    rw [hN]
  have hR : Beers.getACBScoreR name = .score 0 := by
    simp only [Beers.getACBScoreR]
    rw [h3, hfindA]
  have hA : Beers.getACBScore name = 0 := by
    unfold Beers.getACBScore
    rw [hR]
  refine ⟨hN, hR, hE, hA, fun input a ha hcode hdrug => ?_⟩
  obtain ⟨d, hd, hne⟩ := (Beers.beers_alert_facts input a ha).2 hcode
  rw [hdrug] at hd
  cases hd
  exact hne hE

/-- Witness for the amended C7 theorem at the unknown name `zzz` (long
enough for the notification to fire). -/
theorem unknown_drug_resolution_witness :
    Beers.getDrugEffectsN (str "zzz") =
      .list [] (decide (2 < (trimL (lowerL (str "zzz"))).length)) ∧
    Beers.getACBScoreR (str "zzz") = .score 0 ∧
    Beers.getDrugEffects (str "zzz") = [] ∧
    Beers.getACBScore (str "zzz") = 0 ∧
    ∀ input : Beers.BeersInput, ∀ a ∈ (Beers.BEERS_CRITERIA_CHECK input).alerts,
      a.alert_code = ALERT_CODES "BEERS_DISEASE_INTERACTION" →
        a.drug ≠ some (str "zzz") :=
  unknown_drug_resolution (str "zzz") (by decide) (by decide) (by decide) (by decide)

/-- C8: for an applicable Beers evaluation, the reported ACB score is the
sum of the per-drug ACB scores over all medications, and the burden alert
fires exactly when this total is at least 3; concretely, three medications
each contributing ACB 3 for a patient aged 70 yield the burden alert with
a reported ACB score of 9. -/
theorem acb_sum_and_threshold :
    (∀ input : Beers.BeersInput, 65 ≤ input.patient_age →
      (Beers.BEERS_CRITERIA_CHECK input).acb_score =
        some ((input.medications.map fun m => Beers.getACBScore m.name).sum) ∧
      ((∃ a ∈ (Beers.BEERS_CRITERIA_CHECK input).alerts,
          a.alert_code = ALERT_CODES "BEERS_ACB_HIGH") ↔
        3 ≤ (input.medications.map fun m => Beers.getACBScore m.name).sum)) ∧
    (Beers.BEERS_CRITERIA_CHECK
        { patient_age := 70,
          medications := [⟨str "amitriptyline"⟩, ⟨str "atropine"⟩,
            ⟨str "benztropine"⟩] }).acb_score = some 9 ∧
    ∃ a ∈ (Beers.BEERS_CRITERIA_CHECK
        { patient_age := 70,
          medications := [⟨str "amitriptyline"⟩, ⟨str "atropine"⟩,
            ⟨str "benztropine"⟩] }).alerts,
      a.alert_code = ALERT_CODES "BEERS_ACB_HIGH" ∧
      a.message = str "High Anticholinergic Burden (ACB Score: 9)" := by
  refine ⟨fun input hage => ?_, by decide, by decide⟩
  have hage2 : ¬ input.patient_age < 65 := by omega
  refine ⟨Beers.beers_acb_score_eq input hage2, ?_⟩
  rw [Beers.beers_alerts_eq input hage2]
  constructor
  · rintro ⟨a, ha, hcode⟩
    simp only [List.mem_append] at ha
    rcases ha with ((((ha | ha) | ha) | ha) | ha)
    · simp only [Beers.pimAlerts, List.mem_map] at ha
      obtain ⟨p, _, rfl⟩ := ha
      exact absurd (show str "BEERS_PIM_TABLE1" = str "BEERS_ACB_HIGH" from hcode)
        (by decide)
    · simp only [List.mem_map] at ha
      obtain ⟨rec, _, rfl⟩ := ha
      exact absurd (show str "BEERS_DISEASE_INTERACTION" = str "BEERS_ACB_HIGH" from hcode)
        (by decide)
    · simp only [Beers.acbAlerts] at ha
      split_ifs at ha with h
      · exact h
      · simp at ha
    · simp only [Beers.cnsAlerts] at ha
      split_ifs at ha
      · simp only [List.mem_singleton] at ha
        subst ha
        exact absurd (show str "BEERS_CNS_POLYPHARMACY" = str "BEERS_ACB_HIGH" from hcode)
          (by decide)
      · simp at ha
    · simp only [Beers.ppiAlerts] at ha
      split at ha
      · split_ifs at ha
        · simp only [List.mem_singleton] at ha
          subst ha
          exact absurd (show str "BEERS_PPI_LONG_TERM" = str "BEERS_ACB_HIGH" from hcode)
            (by decide)
        · simp at ha
      · simp at ha
  · intro h
    refine ⟨{ alert_code := ALERT_CODES "BEERS_ACB_HIGH",
              severity := str "HIGH",
              message := str "High Anticholinergic Burden (ACB Score: " ++
                natDec (Beers.acbTotal input.medications) ++ str ")" }, ?_, rfl⟩
    have : Beers.acbAlerts input.medications =
        [{ alert_code := ALERT_CODES "BEERS_ACB_HIGH",
           severity := str "HIGH",
           message := str "High Anticholinergic Burden (ACB Score: " ++
             natDec (Beers.acbTotal input.medications) ++ str ")" }] := by
      unfold Beers.acbAlerts
      rw [if_pos (by exact h)]
    simp only [List.mem_append, this]
    exact Or.inl (Or.inl (Or.inr (by simp)))

/-- Witness for C8 at the three-times-ACB-3 scenario. -/
theorem acb_sum_and_threshold_witness :
    (Beers.BEERS_CRITERIA_CHECK
        { patient_age := 70,
          medications := [⟨str "amitriptyline"⟩, ⟨str "atropine"⟩,
            ⟨str "benztropine"⟩] }).acb_score =
      some (([⟨str "amitriptyline"⟩, ⟨str "atropine"⟩,
          ⟨str "benztropine"⟩].map fun m : Medication => Beers.getACBScore m.name).sum) ∧
    ((∃ a ∈ (Beers.BEERS_CRITERIA_CHECK
        { patient_age := 70,
          medications := [⟨str "amitriptyline"⟩, ⟨str "atropine"⟩,
            ⟨str "benztropine"⟩] }).alerts,
        a.alert_code = ALERT_CODES "BEERS_ACB_HIGH") ↔
      3 ≤ (([⟨str "amitriptyline"⟩, ⟨str "atropine"⟩,
          ⟨str "benztropine"⟩] : List Medication).map
            fun m => Beers.getACBScore m.name).sum) :=
  acb_sum_and_threshold.1
    { patient_age := 70,
      medications := [⟨str "amitriptyline"⟩, ⟨str "atropine"⟩, ⟨str "benztropine"⟩] }
    (by decide)


/-!
Deduplication and sort lemmas for the orchestrator.
-/

namespace Orch

/-- Key-filtered view of the deduplication: for any key, the deduplicated
list keeps exactly the first alert of the input with that key (none if the
key was already seen). -/
theorem dedupAux_filter_key (k : JsStr) :
    ∀ (l : List Alert) (seen : List JsStr),
      (dedupAux seen l).filter (fun a => decide (keyOf a = k)) =
        if k ∈ seen then [] else (l.filter (fun a => decide (keyOf a = k))).take 1 := by
  intro l
  induction l with
  | nil => intro seen; by_cases h : k ∈ seen <;> simp [dedupAux, h]
  | cons a t ih =>
      intro seen
      by_cases hmem : keyOf a ∈ seen
      · rw [dedupAux, if_pos hmem, ih]
        by_cases hk : k ∈ seen
        · rw [if_pos hk, if_pos hk]
        · have hne : ¬ keyOf a = k := fun he => hk (he ▸ hmem)
          rw [if_neg hk, if_neg hk, List.filter_cons, if_neg (by simpa using hne)]
      · rw [dedupAux, if_neg hmem, List.filter_cons]
        by_cases hak : keyOf a = k
        · have hk : ¬ k ∈ seen := fun hc => hmem (hak ▸ hc)
          rw [if_pos (by simpa using hak), if_neg hk, ih,
            if_pos (by rw [← hak]; exact List.mem_cons_self _ _),
            List.filter_cons, if_pos (by simpa using hak)]
          rfl
        · rw [if_neg (by simpa using hak), ih]
          by_cases hk : k ∈ seen
          · rw [if_pos (List.mem_cons_of_mem _ hk), if_pos hk]
          · rw [if_neg (fun hc => (List.mem_cons.mp hc).elim (fun he => hak he.symm) hk),
              if_neg hk, List.filter_cons, if_neg (by simpa using hak)]

/-- Deduplication returns a sublist of its input. -/
theorem dedupAux_sublist : ∀ (l : List Alert) (seen : List JsStr),
    (dedupAux seen l).Sublist l := by
  intro l
  induction l with
  | nil => intro seen; simp [dedupAux]
  | cons a t ih =>
      intro seen
      by_cases hmem : keyOf a ∈ seen
      · rw [dedupAux, if_pos hmem]
        exact (ih seen).cons a
      · rw [dedupAux, if_neg hmem]
        exact (ih (keyOf a :: seen)).cons₂ a

/-- Deduplication is the identity on a list whose keys are pairwise
distinct and disjoint from the seen set. -/
theorem dedupAux_eq_self : ∀ (l : List Alert) (seen : List JsStr),
    (∀ a ∈ l, keyOf a ∉ seen) →
    l.Pairwise (fun a b => keyOf a ≠ keyOf b) →
    dedupAux seen l = l := by
  intro l
  induction l with
  | nil => intro seen _ _; rfl
  | cons a t ih =>
      intro seen hseen hpw
      rw [dedupAux, if_neg (hseen a (List.mem_cons_self a t))]
      congr 1
      refine ih _ (fun b hb => ?_) (List.Pairwise.of_cons hpw)
      intro hc
      rcases List.mem_cons.mp hc with he | he
      · exact (List.pairwise_cons.mp hpw).1 b hb he.symm
      · exact hseen b (List.mem_cons_of_mem a hb) he

/-- Key-filtered view of the full deduplicate step. -/
theorem dedup_filter_key (l : List Alert) (k : JsStr) :
    (dedupAlerts l).filter (fun a => decide (keyOf a = k)) =
      (l.filter (fun a => decide (keyOf a = k))).take 1 := by
  rw [dedupAlerts, dedupAux_filter_key k l [], if_neg (by simp)]

/-- The sorted output is a permutation of the deduplicated input. -/
theorem sortAlerts_perm (l : List Alert) : (sortAlerts l).Perm l :=
  List.perm_insertionSort alertLE l

/-- The sorted output is sorted by severity rank. -/
theorem sortAlerts_sorted (l : List Alert) : List.Sorted alertLE (sortAlerts l) :=
  List.sorted_insertionSort alertLE l

/-- Inserting preserves the rank-`k` sublists: skipped elements have
strictly smaller rank than the inserted one. -/
theorem filter_orderedInsert (k : Nat) (x : Alert) :
    ∀ s : List Alert,
      (List.orderedInsert alertLE x s).filter (fun a => decide (rankD a = k)) =
        if rankD x = k then x :: s.filter (fun a => decide (rankD a = k))
        else s.filter (fun a => decide (rankD a = k)) := by
  intro s
  induction s with
  | nil =>
      by_cases h : rankD x = k <;> simp [List.orderedInsert, List.filter_cons, h]
  | cons y t ih =>
      by_cases hxy : alertLE x y
      · rw [List.orderedInsert, if_pos hxy]
        by_cases h : rankD x = k <;> simp [List.filter_cons, h]
      · rw [List.orderedInsert, if_neg hxy]
        have hlt : rankD y < rankD x := Nat.lt_of_not_le (by simpa [alertLE] using hxy)
        by_cases hx : rankD x = k
        · have hy : ¬ rankD y = k := by omega
          simp [List.filter_cons, ih, hx, hy]
        · by_cases hy : rankD y = k <;>
            simp [List.filter_cons, hy, ih, hx]

/-- The sort is stable: for every severity rank, the rank-`k` alerts of the
output are the rank-`k` alerts of the input, in the same order. -/
theorem filter_sortAlerts (k : Nat) (l : List Alert) :
    (sortAlerts l).filter (fun a => decide (rankD a = k)) =
      l.filter (fun a => decide (rankD a = k)) := by
  induction l with
  | nil => rfl
  | cons a t ih =>
      rw [sortAlerts, List.insertionSort]
      rw [show List.insertionSort alertLE t = sortAlerts t from rfl] at *
      rw [filter_orderedInsert k a (sortAlerts t)]
      by_cases h : rankD a = k
      · rw [if_pos h, ih, List.filter_cons, if_pos (by simpa using h)]
      · rw [if_neg h, ih, List.filter_cons, if_neg (by simpa using h)]

/-- Two permuted lists of length at most one are equal. -/
theorem perm_eq_of_length_le_one {l1 l2 : List Alert} (h : l1.Perm l2)
    (hlen : l2.length ≤ 1) : l1 = l2 := by
  cases l2 with
  | nil => exact h.eq_nil
  | cons a t =>
      cases t with
      | nil => exact List.perm_singleton.mp h
      | cons b t2 => simp at hlen

end Orch

namespace Orch

/-- The alerts a module outcome returned (empty for a thrown exception);
the interface through which the orchestrator reads a successful module. -/
def okAlerts : ModuleOutcome → List Alert
  | .ok alerts => alerts
  | .err _ => []

/-- The final alert list, spelled as the pipeline stages. -/
theorem engine_alerts_eq (inp : EngineInput) :
    (MED_SAFETY_ENGINE inp).alerts = sortAlerts (dedupAlerts (mergedAlerts inp)) := rfl

end Orch

/-- C1, counterexample: when two alerts collide on the deduplication key,
the first-seen alert is kept unchanged.  With a HIGH alert merged before a
CRITICAL alert on the same `(alertCode, drug)` key, the engine keeps the
HIGH one (the numerically lower CRITICAL rank does not win), and on an
equal-severity collision the kept alert's `source` is exactly the first
module's label, not a concatenation. -/
theorem dedup_severity_counterexample :
    (Orch.MED_SAFETY_ENGINE
      { triple := .ok [{ alert_code := str "DUP_CODE", severity := str "HIGH",
                         message := str "first", drug := some (str "warfarin") }],
        opioid := .ok [{ alert_code := str "DUP_CODE", severity := str "CRITICAL",
                         message := str "second", drug := some (str "warfarin") }] }).alerts.map
      Alert.severity = [str "HIGH"] ∧
    (Orch.MED_SAFETY_ENGINE
      { triple := .ok [{ alert_code := str "DUP_CODE", severity := str "HIGH",
                         message := str "first", drug := some (str "warfarin") }],
        opioid := .ok [{ alert_code := str "DUP_CODE", severity := str "HIGH",
                         message := str "second", drug := some (str "warfarin") }] }).alerts =
      [{ alert_code := str "DUP_CODE", severity := str "HIGH",
         message := str "first", drug := some (str "warfarin"),
         source := some (str "TRIPLE_WHAMMY") }] := by decide

/-- C1, amended: for every evaluation and every deduplication key, the
returned alerts with that key are exactly the first-seen merged alert with
that key (if any), kept unchanged — regardless of the severities of later
colliding alerts, and with no source concatenation. -/
theorem dedup_first_seen_wins (inp : Orch.EngineInput) (k : JsStr) :
    (Orch.MED_SAFETY_ENGINE inp).alerts.filter (fun a => decide (Orch.keyOf a = k)) =
      ((Orch.mergedAlerts inp).filter (fun a => decide (Orch.keyOf a = k))).take 1 := by
  rw [Orch.engine_alerts_eq]
  refine Orch.perm_eq_of_length_le_one
    (((Orch.sortAlerts_perm _).filter _).trans (by rw [Orch.dedup_filter_key])) ?_
  rcases h : (Orch.mergedAlerts inp).filter (fun a => decide (Orch.keyOf a = k)) with _ | ⟨x, t⟩
  · simp
  · simp

/-- Witness for the amended C1 theorem at a concrete collision. -/
theorem dedup_first_seen_wins_witness :
    (Orch.MED_SAFETY_ENGINE
      { triple := .ok [{ alert_code := str "DUP_CODE", severity := str "MODERATE",
                         message := str "one", drug := some (str "aspirin") }],
        serotonin := .ok [{ alert_code := str "DUP_CODE", severity := str "CRITICAL",
                            message := str "two", drug := some (str "aspirin") }] }).alerts.filter
        (fun a => decide (Orch.keyOf a = str "dup_code:aspirin")) =
      ((Orch.mergedAlerts
        { triple := .ok [{ alert_code := str "DUP_CODE", severity := str "MODERATE",
                           message := str "one", drug := some (str "aspirin") }],
          serotonin := .ok [{ alert_code := str "DUP_CODE", severity := str "CRITICAL",
                              message := str "two", drug := some (str "aspirin") }] }).filter
        (fun a => decide (Orch.keyOf a = str "dup_code:aspirin"))).take 1 :=
  dedup_first_seen_wins _ (str "dup_code:aspirin")

/-- C5: the returned alert list is a stable sort by severity rank
ascending of the merged, deduplicated alerts: adjacent pairs are ordered
by rank, the list is a permutation of the deduplicated merge, and within
each rank the original insertion (module execution) order is preserved. -/
theorem severity_sorted_stable (inp : Orch.EngineInput) :
    List.Chain' (fun a b => Orch.rankD a ≤ Orch.rankD b)
      (Orch.MED_SAFETY_ENGINE inp).alerts ∧
    (Orch.MED_SAFETY_ENGINE inp).alerts.Perm
      (Orch.dedupAlerts (Orch.mergedAlerts inp)) ∧
    ∀ k, (Orch.MED_SAFETY_ENGINE inp).alerts.filter (fun a => decide (Orch.rankD a = k)) =
      (Orch.dedupAlerts (Orch.mergedAlerts inp)).filter
        (fun a => decide (Orch.rankD a = k)) := by
  rw [Orch.engine_alerts_eq]
  exact ⟨(Orch.sortAlerts_sorted _).chain', Orch.sortAlerts_perm _,
    fun k => Orch.filter_sortAlerts k _⟩

/-- Witness for C5 at a concrete evaluation and rank. -/
theorem severity_sorted_stable_witness :
    List.Chain' (fun a b => Orch.rankD a ≤ Orch.rankD b)
      (Orch.MED_SAFETY_ENGINE
        { triple := .ok [{ alert_code := str "A", severity := str "LOW" }],
          opioid := .ok [{ alert_code := str "B", severity := str "CRITICAL" }] }).alerts ∧
    (Orch.MED_SAFETY_ENGINE
      { triple := .ok [{ alert_code := str "A", severity := str "LOW" }],
        opioid := .ok [{ alert_code := str "B", severity := str "CRITICAL" }] }).alerts.filter
        (fun a => decide (Orch.rankD a = 4)) =
      (Orch.dedupAlerts (Orch.mergedAlerts
        { triple := .ok [{ alert_code := str "A", severity := str "LOW" }],
          opioid := .ok [{ alert_code := str "B", severity := str "CRITICAL" }] })).filter
        (fun a => decide (Orch.rankD a = 4)) :=
  ⟨(severity_sorted_stable _).1, (severity_sorted_stable _).2.2 4⟩

/-- C3, counterexample: the module outcomes produced by the malformed
patient state `current_medications: 42` (not a list).  The orchestrator
performs no input validation: the destructuring defaults leave the
non-list value in place and every invoked module throws a `TypeError` at
its first use of `medications` (`medications.filter` in the triple-whammy,
opioid and antithrombotic paths — for the latter already at the
`current_medications.some` call built inside the orchestrator's own try
block —, `for (const med of medications)` in the renal, serotonin and
Beers checks), which each `catch` converts to a system alert. -/
def nonListMedicationsOutcomes : Orch.EngineInput :=
  { egfr := some 50,
    patient_age := some 80,
    renal := .err (str "medications is not iterable"),
    triple := .err (str "medications.filter is not a function"),
    opioid := .err (str "medications.filter is not a function"),
    antithromb := .err (str "current_medications.some is not a function"),
    serotonin := .err (str "medications is not iterable"),
    beers := .err (str "medications is not iterable") }

/-- C3, counterexample: on the malformed input, the evaluation is not
short-circuited by a CRITICAL validation alert — the result carries no
CRITICAL alert at all, only the single deduplicated SYSTEM_FUNCTION_ERROR
alert of severity HIGH produced from the module failures. -/
theorem malformed_input_not_validated_counterexample :
    (Orch.MED_SAFETY_ENGINE nonListMedicationsOutcomes).critical_count = 0 ∧
    (Orch.MED_SAFETY_ENGINE nonListMedicationsOutcomes).has_blocking_alerts = false ∧
    (Orch.MED_SAFETY_ENGINE nonListMedicationsOutcomes).alert_count = 1 ∧
    (Orch.MED_SAFETY_ENGINE nonListMedicationsOutcomes).alerts.map Alert.alert_code =
      [ALERT_CODES "SYSTEM_FUNCTION_ERROR"] ∧
    (Orch.MED_SAFETY_ENGINE nonListMedicationsOutcomes).alerts.map Alert.severity =
      [str "HIGH"] := by decide

/-- C3, amended: the orchestrator has no boundary validation step — every
alert it ever returns either is the synthetic HIGH `SYSTEM_FUNCTION_ERROR`
alert converted from a caught module exception, or comes verbatim (with
the `source` label stamped on) from a module's returned alert list; and on
every input, malformed or not, the four ungated modules are invoked (no
short-circuit). -/
theorem orchestrator_alert_provenance (inp : Orch.EngineInput) :
    (∀ a ∈ (Orch.MED_SAFETY_ENGINE inp).alerts,
      (a.alert_code = ALERT_CODES "SYSTEM_FUNCTION_ERROR" ∧ a.severity = str "HIGH" ∧
        a.source = some (str "SYSTEM")) ∨
      (∃ m ∈ Orch.moduleRuns inp, ∃ b ∈ Orch.okAlerts m.outcome,
        a = { b with source := some m.src })) ∧
    (⟨str "TRIPLE_WHAMMY", str "Triple", inp.triple⟩ : Orch.ModuleRun) ∈
      Orch.moduleRuns inp ∧
    (⟨str "OPIOID", str "Opioid", inp.opioid⟩ : Orch.ModuleRun) ∈ Orch.moduleRuns inp ∧
    (⟨str "ANTITHROMB", str "Antithromb", inp.antithromb⟩ : Orch.ModuleRun) ∈
      Orch.moduleRuns inp ∧
    (⟨str "SEROTONIN", str "Serotonin", inp.serotonin⟩ : Orch.ModuleRun) ∈
      Orch.moduleRuns inp := by
  refine ⟨fun a ha => ?_, by simp [Orch.moduleRuns], by simp [Orch.moduleRuns],
    by simp [Orch.moduleRuns], by simp [Orch.moduleRuns]⟩
  rw [Orch.engine_alerts_eq] at ha
  have ha2 : a ∈ Orch.dedupAlerts (Orch.mergedAlerts inp) :=
    ((Orch.sortAlerts_perm _).mem_iff).mp ha
  have ha3 : a ∈ Orch.mergedAlerts inp :=
    (Orch.dedupAux_sublist _ _).subset ha2
  rw [Orch.mergedAlerts, List.mem_flatMap] at ha3
  obtain ⟨m, hm, ha4⟩ := ha3
  cases hout : m.outcome with
  | ok alerts =>
      simp only [Orch.runOne, hout, List.mem_map] at ha4
      obtain ⟨b, hb, rfl⟩ := ha4
      exact Or.inr ⟨m, hm, b, by simp [Orch.okAlerts, hout, hb]⟩
  | err msg =>
      simp only [Orch.runOne, hout, List.mem_singleton] at ha4
      subst ha4
      exact Or.inl ⟨rfl, rfl, rfl⟩

/-- Witness for the amended C3 theorem on the malformed-input outcomes. -/
theorem orchestrator_alert_provenance_witness :
    (∀ a ∈ (Orch.MED_SAFETY_ENGINE nonListMedicationsOutcomes).alerts,
      (a.alert_code = ALERT_CODES "SYSTEM_FUNCTION_ERROR" ∧ a.severity = str "HIGH" ∧
        a.source = some (str "SYSTEM")) ∨
      (∃ m ∈ Orch.moduleRuns nonListMedicationsOutcomes,
        ∃ b ∈ Orch.okAlerts m.outcome, a = { b with source := some m.src })) ∧
    (⟨str "TRIPLE_WHAMMY", str "Triple", nonListMedicationsOutcomes.triple⟩ :
      Orch.ModuleRun) ∈ Orch.moduleRuns nonListMedicationsOutcomes ∧
    (⟨str "OPIOID", str "Opioid", nonListMedicationsOutcomes.opioid⟩ :
      Orch.ModuleRun) ∈ Orch.moduleRuns nonListMedicationsOutcomes ∧
    (⟨str "ANTITHROMB", str "Antithromb", nonListMedicationsOutcomes.antithromb⟩ :
      Orch.ModuleRun) ∈ Orch.moduleRuns nonListMedicationsOutcomes ∧
    (⟨str "SEROTONIN", str "Serotonin", nonListMedicationsOutcomes.serotonin⟩ :
      Orch.ModuleRun) ∈ Orch.moduleRuns nonListMedicationsOutcomes :=
  orchestrator_alert_provenance nonListMedicationsOutcomes

namespace Orch

/-- Whether a module outcome is a normal return. -/
def isOk : ModuleOutcome → Bool
  | .ok _ => true
  | .err _ => false

/-- An alert contributed by a successfully returning module slot is one of
its returned alerts with the source label stamped on. -/
theorem mem_runOne_ok {m : ModuleRun} {a : Alert} (hok : isOk m.outcome = true)
    (ha : a ∈ runOne m) :
    ∃ b ∈ okAlerts m.outcome, a = { b with source := some m.src } := by
  cases hout : m.outcome with
  | ok alerts =>
      simp only [runOne, hout, List.mem_map] at ha
      obtain ⟨b, hb, rfl⟩ := ha
      exact ⟨b, by simp [okAlerts, hout, hb], rfl⟩
  | err msg => rw [hout] at hok; simp [isOk] at hok

/-- The merged alert list around a single failing module slot. -/
theorem merged_split {inp : EngineInput} {pre post : List ModuleRun}
    {src pfx msg : JsStr}
    (hsplit : moduleRuns inp = pre ++ ⟨src, pfx, .err msg⟩ :: post) :
    mergedAlerts inp =
      pre.flatMap runOne ++ sysAlert pfx msg :: post.flatMap runOne := by
  rw [mergedAlerts, hsplit, List.flatMap_append, List.flatMap_cons]
  rfl

end Orch

/-- C4: when exactly one module slot throws (all slots before and after it
return normally), and the merged alerts have pairwise-distinct
deduplication keys with no module alert using the system error code, the
evaluation still returns: exactly one SYSTEM_FUNCTION_ERROR alert — the
synthetic conversion of the failing module's exception, of severity HIGH,
its message naming the failing module through the module's prefix — plus
every alert of every other invoked module, and the alert count is the
other modules' alert total plus one.  (The engine is a total function: no
module failure aborts the evaluation.) -/
theorem module_isolation (inp : Orch.EngineInput) (pre post : List Orch.ModuleRun)
    (src pfx msg : JsStr)
    (hsplit : Orch.moduleRuns inp = pre ++ ⟨src, pfx, .err msg⟩ :: post)
    (hok : ∀ m ∈ pre ++ post, Orch.isOk m.outcome = true)
    (hkeys : (Orch.mergedAlerts inp).Pairwise (fun a b => Orch.keyOf a ≠ Orch.keyOf b))
    (hcode : ∀ m ∈ pre ++ post, ∀ b ∈ Orch.okAlerts m.outcome,
      b.alert_code ≠ ALERT_CODES "SYSTEM_FUNCTION_ERROR") :
    ((Orch.MED_SAFETY_ENGINE inp).alerts.filter
      (fun a => decide (a.alert_code = ALERT_CODES "SYSTEM_FUNCTION_ERROR"))).length = 1 ∧
    (Orch.sysAlert pfx msg).severity = str "HIGH" ∧
    (Orch.sysAlert pfx msg).message = pfx ++ str ": " ++ msg ∧
    (∀ a ∈ (Orch.MED_SAFETY_ENGINE inp).alerts,
      a.alert_code = ALERT_CODES "SYSTEM_FUNCTION_ERROR" → a = Orch.sysAlert pfx msg) ∧
    (∀ m ∈ pre ++ post, ∀ b ∈ Orch.okAlerts m.outcome,
      { b with source := some m.src } ∈ (Orch.MED_SAFETY_ENGINE inp).alerts) ∧
    (Orch.MED_SAFETY_ENGINE inp).alert_count =
      ((pre ++ post).flatMap Orch.runOne).length + 1 := by
  have hmerged := Orch.merged_split hsplit
  have hside : ∀ m ∈ pre ++ post, ∀ a ∈ Orch.runOne m,
      a.alert_code ≠ ALERT_CODES "SYSTEM_FUNCTION_ERROR" := by
    intro m hm a ha hc
    obtain ⟨b, hb, rfl⟩ := Orch.mem_runOne_ok (hok m hm) ha
    exact hcode m hm b hb hc
  have hdedup : Orch.dedupAlerts (Orch.mergedAlerts inp) = Orch.mergedAlerts inp :=
    Orch.dedupAux_eq_self _ [] (by simp) hkeys
  have hperm : (Orch.MED_SAFETY_ENGINE inp).alerts.Perm (Orch.mergedAlerts inp) := by
    rw [Orch.engine_alerts_eq, hdedup]
    exact Orch.sortAlerts_perm _
  have hmem_iff : ∀ a, a ∈ (Orch.MED_SAFETY_ENGINE inp).alerts ↔
      a ∈ Orch.mergedAlerts inp := fun a => hperm.mem_iff
  have hfilter_side : ∀ (l : List Orch.ModuleRun), (∀ m ∈ l, m ∈ pre ++ post) →
      (l.flatMap Orch.runOne).filter
        (fun a => decide (a.alert_code = ALERT_CODES "SYSTEM_FUNCTION_ERROR")) = [] := by
    intro l hl
    rw [List.filter_eq_nil_iff]
    intro a ha
    rw [List.mem_flatMap] at ha
    obtain ⟨m, hm, ha2⟩ := ha
    simpa using hside m (hl m hm) a ha2
  refine ⟨?_, rfl, rfl, ?_, ?_, ?_⟩
  · rw [(hperm.filter _).length_eq, hmerged, List.filter_append, List.filter_cons]
    rw [hfilter_side pre (fun m hm => List.mem_append_left _ hm),
      hfilter_side post (fun m hm => List.mem_append_right _ hm)]
    simp [Orch.sysAlert]
  · intro a ha hc
    rw [hmem_iff, hmerged, List.mem_append, List.mem_cons] at ha
    rcases ha with ha | ha | ha
    · exact absurd hc (by
        rw [List.mem_flatMap] at ha
        obtain ⟨m, hm, ha2⟩ := ha
        exact hside m (List.mem_append_left _ hm) a ha2)
    · exact ha
    · exact absurd hc (by
        rw [List.mem_flatMap] at ha
        obtain ⟨m, hm, ha2⟩ := ha
        exact hside m (List.mem_append_right _ hm) a ha2)
  · intro m hm b hb
    rw [hmem_iff, hmerged]
    have hrun : ({ b with source := some m.src } : Alert) ∈ Orch.runOne m := by
      cases hout : m.outcome with
      | ok alerts =>
          simp only [Orch.runOne, hout, List.mem_map]
          exact ⟨b, by simpa [Orch.okAlerts, hout] using hb, rfl⟩
      | err msg2 =>
          have h5 := hok m hm
          rw [hout] at h5
          simp [Orch.isOk] at h5
    rcases List.mem_append.mp hm with hmm | hmm
    · exact List.mem_append_left _ (List.mem_flatMap.mpr ⟨m, hmm, hrun⟩)
    · exact List.mem_append_right _
        (List.mem_cons_of_mem _ (List.mem_flatMap.mpr ⟨m, hmm, hrun⟩))
  · have hlen : (Orch.MED_SAFETY_ENGINE inp).alert_count =
        (Orch.MED_SAFETY_ENGINE inp).alerts.length := rfl
    rw [hlen, hperm.length_eq, hmerged, List.flatMap_append]
    simp only [List.length_append, List.length_cons]
    omega

/-- A concrete single-failure scenario: the triple-whammy module returns
one alert, the opioid module throws, the other gated modules are not
applicable and the remaining modules return no alerts. -/
def isolationScenario : Orch.EngineInput :=
  { triple := .ok [{ alert_code := str "TRIPLE_WHAMMY_PRESENT", severity := str "HIGH",
                     message := str "whammy",
                     drugs_involved := some [str "lisinopril", str "furosemide",
                       str "ibuprofen"] }],
    opioid := .err (str "boom") }

/-- The module slots before the failing one in `isolationScenario`. -/
def isolationPre : List Orch.ModuleRun :=
  [⟨str "TRIPLE_WHAMMY", str "Triple",
    .ok [{ alert_code := str "TRIPLE_WHAMMY_PRESENT", severity := str "HIGH",
           message := str "whammy",
           drugs_involved := some [str "lisinopril", str "furosemide",
             str "ibuprofen"] }]⟩]

/-- The module slots after the failing one in `isolationScenario`. -/
def isolationPost : List Orch.ModuleRun :=
  [⟨str "ANTITHROMB", str "Antithromb", .ok []⟩,
   ⟨str "SEROTONIN", str "Serotonin", .ok []⟩]

/-- Witness for C4 at the concrete single-failure scenario. -/
theorem module_isolation_witness :
    ((Orch.MED_SAFETY_ENGINE isolationScenario).alerts.filter
      (fun a => decide (a.alert_code = ALERT_CODES "SYSTEM_FUNCTION_ERROR"))).length = 1 ∧
    (Orch.sysAlert (str "Opioid") (str "boom")).severity = str "HIGH" ∧
    (Orch.sysAlert (str "Opioid") (str "boom")).message =
      str "Opioid" ++ str ": " ++ str "boom" ∧
    (∀ a ∈ (Orch.MED_SAFETY_ENGINE isolationScenario).alerts,
      a.alert_code = ALERT_CODES "SYSTEM_FUNCTION_ERROR" →
        a = Orch.sysAlert (str "Opioid") (str "boom")) ∧
    (∀ m ∈ isolationPre ++ isolationPost, ∀ b ∈ Orch.okAlerts m.outcome,
      { b with source := some m.src } ∈
        (Orch.MED_SAFETY_ENGINE isolationScenario).alerts) ∧
    (Orch.MED_SAFETY_ENGINE isolationScenario).alert_count =
      ((isolationPre ++ isolationPost).flatMap Orch.runOne).length + 1 :=
  module_isolation isolationScenario isolationPre isolationPost
    (str "OPIOID") (str "Opioid") (str "boom")
    (by decide) (by decide) (by decide) (by decide)

/-- C10: when two or more module slots throw, all synthetic system alerts
share the deduplication key (the code is one fixed constant and none of
them carries a `drug` field), so the engine returns exactly the first
failing module's SYSTEM_FUNCTION_ERROR alert; every later failure alert is
silently dropped by the first-seen-wins deduplication. -/
theorem multi_failure_single_system_alert (inp : Orch.EngineInput)
    (pre post : List Orch.ModuleRun) (src pfx msg : JsStr)
    (hsplit : Orch.moduleRuns inp = pre ++ ⟨src, pfx, .err msg⟩ :: post)
    (hpre : ∀ m ∈ pre, Orch.isOk m.outcome = true)
    (_hmore : ∃ m ∈ post, Orch.isOk m.outcome = false)
    (hcode : ∀ m ∈ Orch.moduleRuns inp, ∀ b ∈ Orch.okAlerts m.outcome,
      b.alert_code ≠ ALERT_CODES "SYSTEM_FUNCTION_ERROR")
    (hkeyb : ∀ m ∈ Orch.moduleRuns inp, ∀ b ∈ Orch.okAlerts m.outcome,
      Orch.keyOf b ≠ Orch.keyOf (Orch.sysAlert pfx msg)) :
    (∀ p1 m1 p2 m2 : JsStr,
      Orch.keyOf (Orch.sysAlert p1 m1) = Orch.keyOf (Orch.sysAlert p2 m2)) ∧
    Orch.sysAlert pfx msg ∈ (Orch.MED_SAFETY_ENGINE inp).alerts ∧
    ∀ a ∈ (Orch.MED_SAFETY_ENGINE inp).alerts,
      a.alert_code = ALERT_CODES "SYSTEM_FUNCTION_ERROR" →
        a = Orch.sysAlert pfx msg := by
  have hmerged := Orch.merged_split hsplit
  -- every merged alert either comes from a normal module return, or is a
  -- synthetic system alert and then shares the deduplication key
  have hshape : ∀ a ∈ Orch.mergedAlerts inp,
      (∃ m ∈ Orch.moduleRuns inp, ∃ b ∈ Orch.okAlerts m.outcome,
        a = { b with source := some m.src }) ∨
      (a.alert_code = ALERT_CODES "SYSTEM_FUNCTION_ERROR" ∧
        Orch.keyOf a = Orch.keyOf (Orch.sysAlert pfx msg)) := by
    intro a ha
    rw [Orch.mergedAlerts, List.mem_flatMap] at ha
    obtain ⟨m, hm, ha2⟩ := ha
    cases hout : m.outcome with
    | ok alerts =>
        simp only [Orch.runOne, hout, List.mem_map] at ha2
        obtain ⟨b, hb, rfl⟩ := ha2
        exact Or.inl ⟨m, hm, b, by simp [Orch.okAlerts, hout, hb]⟩
    | err msg2 =>
        simp only [Orch.runOne, hout, List.mem_singleton] at ha2
        subst ha2
        exact Or.inr ⟨rfl, rfl⟩
  -- alerts from normal module returns never carry the system key
  have hokkey : ∀ a ∈ Orch.mergedAlerts inp,
      Orch.keyOf a = Orch.keyOf (Orch.sysAlert pfx msg) →
        a.alert_code = ALERT_CODES "SYSTEM_FUNCTION_ERROR" := by
    intro a ha hk
    rcases hshape a ha with ⟨m, hm, b, hb, rfl⟩ | ⟨hc, _⟩
    · exact absurd hk (hkeyb m hm b hb)
    · exact hc
  -- the key-filtered merge starts with the first failing module's alert
  have hkfilter : (Orch.mergedAlerts inp).filter
      (fun a => decide (Orch.keyOf a = Orch.keyOf (Orch.sysAlert pfx msg))) =
      Orch.sysAlert pfx msg ::
        (post.flatMap Orch.runOne).filter
          (fun a => decide (Orch.keyOf a = Orch.keyOf (Orch.sysAlert pfx msg))) := by
    rw [hmerged, List.filter_append, List.filter_cons]
    have hprefilter : (pre.flatMap Orch.runOne).filter
        (fun a => decide (Orch.keyOf a = Orch.keyOf (Orch.sysAlert pfx msg))) = [] := by
      rw [List.filter_eq_nil_iff]
      intro a ha
      rw [List.mem_flatMap] at ha
      obtain ⟨m, hm, ha2⟩ := ha
      obtain ⟨b, hb, rfl⟩ := Orch.mem_runOne_ok (hpre m hm) ha2
      have hm2 : m ∈ Orch.moduleRuns inp := by
        rw [hsplit]; exact List.mem_append_left _ hm
      simpa using hkeyb m hm2 b hb
    rw [hprefilter, if_pos (by simp)]
    rfl
  have hdedfilter := Orch.dedup_filter_key (Orch.mergedAlerts inp)
    (Orch.keyOf (Orch.sysAlert pfx msg))
  rw [hkfilter] at hdedfilter
  simp only [List.take_succ_cons, List.take_zero] at hdedfilter
  have hsysmem : Orch.sysAlert pfx msg ∈
      Orch.dedupAlerts (Orch.mergedAlerts inp) := by
    have h1 : Orch.sysAlert pfx msg ∈
        (Orch.dedupAlerts (Orch.mergedAlerts inp)).filter
          (fun a => decide (Orch.keyOf a = Orch.keyOf (Orch.sysAlert pfx msg))) := by
      rw [hdedfilter]; simp
    exact List.mem_of_mem_filter h1
  have hperm : (Orch.MED_SAFETY_ENGINE inp).alerts.Perm
      (Orch.dedupAlerts (Orch.mergedAlerts inp)) := by
    rw [Orch.engine_alerts_eq]
    exact Orch.sortAlerts_perm _
  refine ⟨fun _ _ _ _ => rfl, hperm.mem_iff.mpr hsysmem, fun a ha hc => ?_⟩
  have had : a ∈ Orch.dedupAlerts (Orch.mergedAlerts inp) := hperm.mem_iff.mp ha
  have ham : a ∈ Orch.mergedAlerts inp := (Orch.dedupAux_sublist _ _).subset had
  have hak : Orch.keyOf a = Orch.keyOf (Orch.sysAlert pfx msg) := by
    rcases hshape a ham with ⟨m, hm, b, hb, rfl⟩ | ⟨_, hk⟩
    · exact absurd hc (by
        have : ({ b with source := some m.src } : Alert).alert_code = b.alert_code := rfl
        rw [this]
        exact hcode m hm b hb)
    · exact hk
  have h2 : a ∈ (Orch.dedupAlerts (Orch.mergedAlerts inp)).filter
      (fun a => decide (Orch.keyOf a = Orch.keyOf (Orch.sysAlert pfx msg))) :=
    List.mem_filter.mpr ⟨had, by simpa using hak⟩
  rw [hdedfilter] at h2
  simpa using h2

/-- A concrete double-failure scenario: the triple-whammy and serotonin
modules both throw; the serotonin failure alert is dropped. -/
def doubleFailureScenario : Orch.EngineInput :=
  { triple := .err (str "first failure"),
    serotonin := .err (str "second failure") }

/-- Witness for C10 at the concrete double-failure scenario. -/
theorem multi_failure_single_system_alert_witness :
    (∀ p1 m1 p2 m2 : JsStr,
      Orch.keyOf (Orch.sysAlert p1 m1) = Orch.keyOf (Orch.sysAlert p2 m2)) ∧
    Orch.sysAlert (str "Triple") (str "first failure") ∈
      (Orch.MED_SAFETY_ENGINE doubleFailureScenario).alerts ∧
    ∀ a ∈ (Orch.MED_SAFETY_ENGINE doubleFailureScenario).alerts,
      a.alert_code = ALERT_CODES "SYSTEM_FUNCTION_ERROR" →
        a = Orch.sysAlert (str "Triple") (str "first failure") :=
  multi_failure_single_system_alert doubleFailureScenario []
    ([⟨str "OPIOID", str "Opioid", .ok []⟩,
      ⟨str "ANTITHROMB", str "Antithromb", .ok []⟩,
      ⟨str "SEROTONIN", str "Serotonin", .err (str "second failure")⟩] :
        List Orch.ModuleRun)
    (str "TRIPLE_WHAMMY") (str "Triple") (str "first failure")
    (by decide) (by decide)
    ⟨⟨str "SEROTONIN", str "Serotonin", .err (str "second failure")⟩, by decide, by decide⟩
    (by decide) (by decide)
